import Mathlib

/-!
# Leading Edge Model D RTC (MM58167): shallow embedding

Verification development for `src/device/leading_edge_rtc.c`: the register
file, the per-second tick engine (`mm67_tick`), alarm comparison
(`mm67_chkalrm`), the port read/write dispatch (`mm67_read`, `mm67_write`)
and the lifecycle hooks.  Registers are modelled as a total function
`Nat → Nat` holding 8-bit values; every store of a computed value is
reduced `% 256`, mirroring the `uint8_t` cells of `nvr->regs`.

The BCD codec macros `RTC_BCD` / `RTC_DCB` / `RTC_BCDINC` and the
`nvr_get_days` helper are declared in 86Box's `nvr.h` / `nvr.c`, which is
not part of this excerpt; they are modelled from the spec (sections 4.1
and 6) below.
-/

/-! ## Register indices and bit masks (from the `#define` block) -/

def MM67_REGS : Nat := 32

def MM67_MSEC : Nat := 0

def MM67_HUNTEN : Nat := 1

def MM67_SEC : Nat := 2

def MM67_MIN : Nat := 3

def MM67_HOUR : Nat := 4

def MM67_DOW : Nat := 5

def MM67_DOM : Nat := 6

def MM67_MON : Nat := 7

def MM67_AL_MSEC : Nat := 8

def MM67_AL_HUNTEN : Nat := 9

def MM67_AL_SEC : Nat := 10

def MM67_AL_MIN : Nat := 11

def MM67_AL_HOUR : Nat := 12

def MM67_AL_DOW : Nat := 13

def MM67_AL_DOM : Nat := 14

def MM67_AL_MON : Nat := 15

def MM67_AL_DONTCARE : Nat := 0xc0

def MM67_ISTAT : Nat := 16

def MM67_ICTRL : Nat := 17

def MM67INT_COMPARE : Nat := 0x01

def MM67INT_TENTH : Nat := 0x02

def MM67INT_SEC : Nat := 0x04

def MM67INT_MIN : Nat := 0x08

def MM67INT_HOUR : Nat := 0x10

def MM67INT_DAY : Nat := 0x20

def MM67INT_WEEK : Nat := 0x40

def MM67INT_MON : Nat := 0x80

def MM67_RSTCTR : Nat := 18

def MM67_RSTRAM : Nat := 19

def MM67_STATUS : Nat := 20

def MM67_GOCMD : Nat := 21

def MM67_STBYIRQ : Nat := 22

def MM67_TEST : Nat := 31

/-! ## The BCD codec, modelled from the spec -/

/-- Modelled from the spec: `encode(binary) -> byte`, "binary value 0–99
packed into two BCD nibbles" (macro `RTC_BCD` of 86Box's `nvr.h`, not part
of this excerpt).  Tens digit in the high nibble, units in the low nibble;
for arguments above 99 the full quotient goes into the high nibble, which
is what makes the tick engine's explicit `>= RTC_BCD(100)` century clamp
meaningful. -/
def RTC_BCD (x : Nat) : Nat := (x % 10) ||| ((x / 10) <<< 4)

/-- Modelled from the spec: `decode(byte) -> binary`, "each nibble treated
as a decimal digit" (macro `RTC_DCB` of 86Box's `nvr.h`, not part of this
excerpt). -/
def RTC_DCB (x : Nat) : Nat := ((x &&& 0xf0) >>> 4) * 10 + (x &&& 0x0f)

/-- Modelled from the spec: `incrementBCD(byte, step) -> byte`, decimal
increment of a BCD-encoded value (macro `RTC_BCDINC` of 86Box's `nvr.h`,
not part of this excerpt). -/
def RTC_BCDINC (x a : Nat) : Nat := RTC_BCD (RTC_DCB x + a)

/-- Modelled from the spec: "a days-in-month function taking
(month 1–12, four-digit year) honoring leap years" (`nvr_get_days` of
86Box's `nvr.c`, not part of this excerpt). -/
def nvr_get_days (month year : Nat) : Nat :=
  if month = 2 then
    (if year % 4 = 0 ∧ (year % 100 ≠ 0 ∨ year % 400 = 0) then 29 else 28)
  else if month = 4 ∨ month = 6 ∨ month = 9 ∨ month = 11 then 30
  else 31

/-! ## Device state -/

/-- The 32-cell register file `nvr->regs`, as a total function; only
indices below `MM67_REGS` are ever used. -/
def Regs : Type := Nat → Nat

/-- The device state: register file, interrupt line (`nvr->irq`, `-1`
meaning unconfigured) and the year-register index (`dev->year_reg`;
`none` models a negative `int8_t`, i.e. year tracking disabled). -/
structure Mm67 where
  regs : Regs
  irq : Int
  year_reg : Option Nat

/-- Host calendar snapshot (`struct tm` as filled by `nvr_time_get`):
month `0–11`, weekday `0–6`, year counted from 1900. -/
structure Tm where
  tm_sec : Nat
  tm_min : Nat
  tm_hour : Nat
  tm_wday : Nat
  tm_mday : Nat
  tm_mon : Nat
  tm_year : Nat

/-! ## Alarm comparison -/

/-- Source function `mm67_chkalrm`: the current-time register corresponding to alarm
register `addr` equals the alarm register, or the alarm register is
marked don't-care (top two bits set). -/
def mm67_chkalrm (regs : Regs) (addr : Nat) : Bool :=
  (regs (addr - MM67_AL_SEC + MM67_SEC) == regs addr) ||
    ((regs addr &&& MM67_AL_DONTCARE) == MM67_AL_DONTCARE)

/-- The five-way alarm conjunction of `mm67_tick` (lines 256–258):
alarm seconds, minutes, hours, day-of-month slot and month. -/
def compareFires (regs : Regs) : Bool :=
  mm67_chkalrm regs MM67_AL_SEC && mm67_chkalrm regs MM67_AL_MIN &&
    mm67_chkalrm regs MM67_AL_HOUR && mm67_chkalrm regs MM67_AL_DOM &&
    mm67_chkalrm regs MM67_AL_MON

/-! ## The tick engine

`mm67_tick` is decomposed into one definition per nesting level of the C
function; each definition is the body of the corresponding `if` block. -/

/-- The `year` local of `mm67_tick`: binary year from the base-80 BCD
year register plus 1900 (lines 223–229). -/
def mm67_year (year_reg : Option Nat) (regs : Regs) : Nat :=
  (match year_reg with
   | some y => RTC_DCB (regs y) + 80
   | none => 80) + 1900

/-- Year increment block of `mm67_tick` (lines 242–248): BCD-increment the
year register, clamping the century rollover `99 → 00`. -/
def tickYear (year_reg : Option Nat) (regs : Regs) : Regs :=
  match year_reg with
  | some y =>
    let regs := Function.update regs y (RTC_BCDINC (regs y) 1 % 256)
    if RTC_BCD 100 ≤ regs y then Function.update regs y (RTC_BCD 0) else regs
  | none => regs

/-- Month rollover block of `mm67_tick` (lines 232–250), entered when the
day of month exceeds the days in the current month. -/
def tickMonth (year_reg : Option Nat) (regs : Regs) (f : Nat) : Regs × Nat :=
  let regs := Function.update regs MM67_DOM (RTC_BCD 1)
  let regs := Function.update regs MM67_MON (RTC_BCDINC (regs MM67_MON) 1 % 256)
  let f := if regs MM67_ICTRL &&& MM67INT_MON ≠ 0 then MM67INT_MON else f
  if RTC_BCD 12 < regs MM67_MON then
    (tickYear year_reg (Function.update regs MM67_MON (RTC_BCD 1)), f)
  else (regs, f)

/-- Day block of `mm67_tick` (lines 206–251), entered on hour rollover:
reset hour, advance day-of-week (wrapping above 7) and day-of-month,
rolling the month when the day exceeds the days in the month. -/
def tickDay (year_reg : Option Nat) (regs : Regs) (f : Nat) : Regs × Nat :=
  let regs := Function.update regs MM67_HOUR (RTC_BCD 0)
  let regs := Function.update regs MM67_DOW (RTC_BCDINC (regs MM67_DOW) 1 % 256)
  let f := if regs MM67_ICTRL &&& MM67INT_DAY ≠ 0 then MM67INT_DAY else f
  let rf :=
    if RTC_BCD 7 < regs MM67_DOW then
      (Function.update regs MM67_DOW (RTC_BCD 1),
       if regs MM67_ICTRL &&& MM67INT_WEEK ≠ 0 then MM67INT_WEEK else f)
    else (regs, f)
  let regs := rf.1
  let f := rf.2
  let regs := Function.update regs MM67_DOM (RTC_BCDINC (regs MM67_DOM) 1 % 256)
  if nvr_get_days (RTC_DCB (regs MM67_MON)) (mm67_year year_reg regs) <
      RTC_DCB (regs MM67_DOM) then
    tickMonth year_reg regs f
  else (regs, f)

/-- Hour block of `mm67_tick` (lines 199–252), entered on minute
rollover. -/
def tickHour (year_reg : Option Nat) (regs : Regs) (f : Nat) : Regs × Nat :=
  let regs := Function.update regs MM67_MIN (RTC_BCD 0)
  let regs := Function.update regs MM67_HOUR (RTC_BCDINC (regs MM67_HOUR) 1 % 256)
  let f := if regs MM67_ICTRL &&& MM67INT_HOUR ≠ 0 then MM67INT_HOUR else f
  if RTC_BCD 24 ≤ regs MM67_HOUR then tickDay year_reg regs f else (regs, f)

/-- Minute block of `mm67_tick` (lines 192–253), entered on second
rollover. -/
def tickMin (year_reg : Option Nat) (regs : Regs) (f : Nat) : Regs × Nat :=
  let regs := Function.update regs MM67_SEC (RTC_BCD 0)
  let regs := Function.update regs MM67_MIN (RTC_BCDINC (regs MM67_MIN) 1 % 256)
  let f := if regs MM67_ICTRL &&& MM67INT_MIN ≠ 0 then MM67INT_MIN else f
  if RTC_BCD 60 ≤ regs MM67_MIN then tickHour year_reg regs f else (regs, f)

/-- Time-advance part of `mm67_tick` (lines 186–253): returns the updated
register file and the event flag `f`. -/
def tickTime (year_reg : Option Nat) (regs : Regs) : Regs × Nat :=
  let regs := Function.update regs MM67_SEC (RTC_BCDINC (regs MM67_SEC) 1 % 256)
  let f := if regs MM67_ICTRL &&& MM67INT_SEC ≠ 0 then MM67INT_SEC else 0
  if RTC_BCD 60 ≤ regs MM67_SEC then tickMin year_reg regs f else (regs, f)

/-- Time advance plus the alarm comparison (lines 255–260): the second
component is the final event flag `f`, with the compare bit ORed in when
all five alarm comparisons match. -/
def tickEvents (year_reg : Option Nat) (regs : Regs) : Regs × Nat :=
  let rf := tickTime year_reg regs
  (rf.1, if compareFires rf.1 then rf.2 ||| MM67INT_COMPARE else rf.2)

/-- Source function `mm67_tick`: advance the clock one second; when any event fired, OR
the flags into the interrupt status register and, when the interrupt line
is configured (`irq != -1`), raise it.  The second component records
whether `picint` was invoked. -/
def mm67_tick (st : Mm67) : Mm67 × Bool :=
  let rf := tickEvents st.year_reg st.regs
  if rf.2 ≠ 0 then
    ({ st with
        regs := Function.update rf.1 MM67_ISTAT ((rf.1 MM67_ISTAT ||| rf.2) % 256) },
     st.irq ≠ -1)
  else ({ st with regs := rf.1 }, false)

/-! ## Lifecycle and port access -/

/-- Source function `mm67_time_set`: write the host calendar snapshot into the time
registers in BCD, zeroing the sub-second registers; the year goes to the
configured year register as base-80 two-digit BCD. -/
def mm67_time_set (tm : Tm) (st : Mm67) : Mm67 :=
  let regs := st.regs
  let regs := Function.update regs MM67_MSEC 0
  let regs := Function.update regs MM67_HUNTEN 0
  let regs := Function.update regs MM67_SEC (RTC_BCD tm.tm_sec % 256)
  let regs := Function.update regs MM67_MIN (RTC_BCD tm.tm_min % 256)
  let regs := Function.update regs MM67_HOUR (RTC_BCD tm.tm_hour % 256)
  let regs := Function.update regs MM67_DOW (RTC_BCD (tm.tm_wday + 1) % 256)
  let regs := Function.update regs MM67_DOM (RTC_BCD tm.tm_mday % 256)
  let regs := Function.update regs MM67_MON (RTC_BCD (tm.tm_mon + 1) % 256)
  let regs :=
    match st.year_reg with
    | some y => Function.update regs y (RTC_BCD ((tm.tm_year - 80) % 100) % 256)
    | none => regs
  { st with regs := regs }

/-- Source function `mm67_start`: reseed the time registers from the host time `tm`
(the `nvr_time_get` collaborator is modelled as the `tm` argument). -/
def mm67_start (tm : Tm) (st : Mm67) : Mm67 := mm67_time_set tm st

/-- Source function `mm67_reset`: clear all 32 registers, then start from host time. -/
def mm67_reset (tm : Tm) (st : Mm67) : Mm67 :=
  mm67_start tm { st with regs := fun i => if i < MM67_REGS then 0 else st.regs i }

/-- Source function `mm67_read`: decode the port to a register index (`(port - 0x300) & 0x1f`),
return the stored byte inside the register file, `0xff` otherwise. -/
def mm67_read (st : Mm67) (port : Nat) : Nat :=
  let reg := (port - 0x300) &&& 0x1f
  if reg < MM67_REGS then st.regs reg else 0xff

/-- Source function `mm67_write`: decode the port to a register index and dispatch:
reset-counters zeroes the sub-second registers, reset-RAM and GO reseed
from host time (`tm`), a status write clears the status register, and all
other indices store the byte verbatim. -/
def mm67_write (tm : Tm) (st : Mm67) (port val : Nat) : Mm67 :=
  let reg := (port - 0x300) &&& 0x1f
  if reg < MM67_REGS then
    if reg = MM67_RSTCTR then
      { st with
          regs := Function.update (Function.update st.regs MM67_MSEC 0) MM67_HUNTEN 0 }
    else if reg = MM67_RSTRAM then mm67_reset tm st
    else if reg = MM67_GOCMD then mm67_start tm st
    else if reg = MM67_ISTAT then { st with regs := Function.update st.regs MM67_ISTAT 0 }
    else { st with regs := Function.update st.regs reg (val % 256) }
  else st

/-- Source function `leading_edge_rtc_init`: zeroed (`calloc`) state with the interrupt
line unconfigured (`irq = -1`) and the year stored in the alarm
day-of-month register, then the NVR reset (clear registers and reseed
from host time). -/
def leading_edge_rtc_init (tm : Tm) : Mm67 :=
  mm67_reset tm { regs := fun _ => 0, irq := -1, year_reg := some MM67_AL_DOM }

/-! ## Basic facts about the BCD codec -/

/-- Valid packed BCD: each nibble is a decimal digit `0–9`. -/
def ValidBCD (b : Nat) : Prop := b &&& 0x0f ≤ 9 ∧ b >>> 4 ≤ 9

instance (b : Nat) : Decidable (ValidBCD b) :=
  inferInstanceAs (Decidable (_ ∧ _))

/-- A concrete register file from a list of byte values (absent entries
read as zero). -/
def regsOfList (l : List Nat) : Regs := fun i => l.getD i 0

theorem dcb_bcd : ∀ d, d < 101 → RTC_DCB (RTC_BCD d) = d := by decide

theorem bcd_lt_256 : ∀ d, d < 101 → RTC_BCD d < 256 := by decide

theorem bcd_valid : ∀ d, d < 100 → ValidBCD (RTC_BCD d) := by decide

theorem bcd_ge_60_iff : ∀ d, d < 101 → (RTC_BCD 60 ≤ RTC_BCD d ↔ 60 ≤ d) := by decide

theorem bcd_ge_24_iff : ∀ d, d < 101 → (RTC_BCD 24 ≤ RTC_BCD d ↔ 24 ≤ d) := by decide

theorem bcd_gt_7_iff : ∀ d, d < 101 → (RTC_BCD 7 < RTC_BCD d ↔ 7 < d) := by decide

theorem bcd_gt_12_iff : ∀ d, d < 101 → (RTC_BCD 12 < RTC_BCD d ↔ 12 < d) := by decide

theorem bcd_ge_100_iff : ∀ d, d < 101 → (RTC_BCD 100 ≤ RTC_BCD d ↔ 100 ≤ d) := by decide

theorem validBCD_lt (b : Nat) (h : ValidBCD b) : b < 160 := by
  have h2 := h.2
  rw [Nat.shiftRight_eq_div_pow] at h2
  have := (Nat.div_lt_iff_lt_mul (by norm_num : 0 < 2 ^ 4)).mp (Nat.lt_succ_of_le h2)
  omega

set_option maxRecDepth 4000 in
theorem validBCD_dcb_lt (b : Nat) (h : ValidBCD b) : RTC_DCB b < 100 :=
  (by decide : ∀ c, c < 160 → ValidBCD c → RTC_DCB c < 100) b (validBCD_lt b h) h

set_option maxRecDepth 4000 in
theorem validBCD_bcd_dcb (b : Nat) (h : ValidBCD b) : RTC_BCD (RTC_DCB b) = b :=
  (by decide : ∀ c, c < 160 → ValidBCD c → RTC_BCD (RTC_DCB c) = c) b (validBCD_lt b h) h

theorem nvr_get_days_le (m y : Nat) : nvr_get_days m y ≤ 31 := by
  unfold nvr_get_days; split_ifs <;> norm_num

theorem nvr_get_days_ge (m y : Nat) : 28 ≤ nvr_get_days m y := by
  unfold nvr_get_days; split_ifs <;> norm_num

/-- Decimal increment of a valid BCD byte, with the `uint8_t` truncation
dropped: `RTC_BCDINC b 1 % 256 = RTC_BCD (RTC_DCB b + 1)`. -/
theorem bcdinc_valid (b : Nat) (h : ValidBCD b) :
    RTC_BCDINC b 1 % 256 = RTC_BCD (RTC_DCB b + 1) := by
  have hd := validBCD_dcb_lt b h
  unfold RTC_BCDINC
  exact Nat.mod_eq_of_lt (bcd_lt_256 _ (by omega))

/-! ## Frame lemmas: registers the tick engine never writes -/

theorem tickYear_frame (yr : Option Nat) (regs : Regs) (j : Nat)
    (hy : ∀ y, yr = some y → j ≠ y) : tickYear yr regs j = regs j := by
  cases yr with
  | none => rfl
  | some y =>
    have hj : j ≠ y := hy y rfl
    unfold tickYear
    dsimp only
    split <;> simp [Function.update_noteq hj]

theorem tickMonth_frame (yr : Option Nat) (regs : Regs) (f : Nat) (j : Nat)
    (h6 : j ≠ MM67_DOM) (h7 : j ≠ MM67_MON)
    (hy : ∀ y, yr = some y → j ≠ y) : (tickMonth yr regs f).1 j = regs j := by
  unfold tickMonth
  dsimp only
  split
  · simp only []
    rw [tickYear_frame yr _ j hy]
    simp [Function.update_noteq h6, Function.update_noteq h7]
  · simp [Function.update_noteq h6, Function.update_noteq h7]

theorem tickDay_frame (yr : Option Nat) (regs : Regs) (f : Nat) (j : Nat)
    (h4 : j ≠ MM67_HOUR) (h5 : j ≠ MM67_DOW) (h6 : j ≠ MM67_DOM) (h7 : j ≠ MM67_MON)
    (hy : ∀ y, yr = some y → j ≠ y) : (tickDay yr regs f).1 j = regs j := by
  unfold tickDay
  dsimp only
  split <;> dsimp only <;> split <;>
    first
      | (rw [tickMonth_frame yr _ _ j h6 h7 hy]
         simp [Function.update_noteq h4, Function.update_noteq h5,
           Function.update_noteq h6])
      | simp [Function.update_noteq h4, Function.update_noteq h5,
          Function.update_noteq h6]

theorem tickHour_frame (yr : Option Nat) (regs : Regs) (f : Nat) (j : Nat)
    (h3 : j ≠ MM67_MIN) (h4 : j ≠ MM67_HOUR) (h5 : j ≠ MM67_DOW) (h6 : j ≠ MM67_DOM)
    (h7 : j ≠ MM67_MON) (hy : ∀ y, yr = some y → j ≠ y) :
    (tickHour yr regs f).1 j = regs j := by
  unfold tickHour
  dsimp only
  split
  · rw [tickDay_frame yr _ _ j h4 h5 h6 h7 hy]
    simp [Function.update_noteq h3, Function.update_noteq h4]
  · simp [Function.update_noteq h3, Function.update_noteq h4]

theorem tickMin_frame (yr : Option Nat) (regs : Regs) (f : Nat) (j : Nat)
    (h2 : j ≠ MM67_SEC) (h3 : j ≠ MM67_MIN) (h4 : j ≠ MM67_HOUR) (h5 : j ≠ MM67_DOW)
    (h6 : j ≠ MM67_DOM) (h7 : j ≠ MM67_MON) (hy : ∀ y, yr = some y → j ≠ y) :
    (tickMin yr regs f).1 j = regs j := by
  unfold tickMin
  dsimp only
  split
  · rw [tickHour_frame yr _ _ j h3 h4 h5 h6 h7 hy]
    simp [Function.update_noteq h2, Function.update_noteq h3]
  · simp [Function.update_noteq h2, Function.update_noteq h3]

theorem tickTime_frame (yr : Option Nat) (regs : Regs) (j : Nat)
    (h2 : j ≠ MM67_SEC) (h3 : j ≠ MM67_MIN) (h4 : j ≠ MM67_HOUR) (h5 : j ≠ MM67_DOW)
    (h6 : j ≠ MM67_DOM) (h7 : j ≠ MM67_MON) (hy : ∀ y, yr = some y → j ≠ y) :
    (tickTime yr regs).1 j = regs j := by
  unfold tickTime
  dsimp only
  split
  · rw [tickMin_frame yr _ _ j h2 h3 h4 h5 h6 h7 hy]
    simp [Function.update_noteq h2]
  · simp [Function.update_noteq h2]

/-- Outside the interrupt status register, `mm67_tick` computes the same
register values as its time-advance part `tickTime`. -/
theorem mm67_tick_regs_of_ne (st : Mm67) (j : Nat) (hj : j ≠ MM67_ISTAT) :
    (mm67_tick st).1.regs j = (tickTime st.year_reg st.regs).1 j := by
  unfold mm67_tick tickEvents
  dsimp only
  split <;> split <;> simp [Function.update_noteq hj]

theorem tickEvents_fst (yr : Option Nat) (regs : Regs) :
    (tickEvents yr regs).1 = (tickTime yr regs).1 := rfl

/-! ## Concrete states used by witnesses and counterexamples -/

/-- A generic concrete register file for witnesses. -/
def wregs : Regs :=
  regsOfList [1, 2, 3, 4, 5, 6, 7, 8, 9, 10, 11, 12, 13, 14, 15, 16, 0x55, 0x0C]

/-- A generic concrete device state for witnesses. -/
def wst : Mm67 := { regs := wregs, irq := -1, year_reg := some MM67_AL_DOM }

/-- A well-formed host time for witnesses: 2026-06-15, Tuesday, 13:45:30. -/
def wtm : Tm :=
  { tm_sec := 30, tm_min := 45, tm_hour := 13, tm_wday := 2, tm_mday := 15,
    tm_mon := 5, tm_year := 126 }

/-! ## C7: writes to the interrupt status register clear it -/

/-- C7: for every written value and every prior status content, a port
write decoding to the interrupt status register (index 16) stores `0x00`
there, ignoring the written value; a subsequent read of that register
returns `0x00`; and a following tick on which no event fires leaves it at
`0x00`. -/
theorem c7_status_write_clear (tm : Tm) (st : Mm67) (port val : Nat)
    (hyr : st.year_reg = some MM67_AL_DOM)
    (hport : (port - 0x300) &&& 0x1f = MM67_ISTAT) :
    (mm67_write tm st port val).regs MM67_ISTAT = 0 ∧
    mm67_read (mm67_write tm st port val) port = 0 ∧
    ((tickEvents (mm67_write tm st port val).year_reg
        (mm67_write tm st port val).regs).2 = 0 →
      (mm67_tick (mm67_write tm st port val)).1.regs MM67_ISTAT = 0) := by
  have hw : mm67_write tm st port val =
      { st with regs := Function.update st.regs MM67_ISTAT 0 } := by
    unfold mm67_write
    rw [hport]
    norm_num [MM67_ISTAT, MM67_REGS, MM67_RSTCTR, MM67_RSTRAM, MM67_GOCMD]
  rw [hw]
  refine ⟨by simp, ?_, ?_⟩
  · unfold mm67_read
    rw [hport]
    norm_num [MM67_ISTAT, MM67_REGS]
  · intro hf
    unfold mm67_tick
    dsimp only at hf ⊢
    rw [hf]
    have h16 : (tickEvents st.year_reg (Function.update st.regs MM67_ISTAT 0)).1
        MM67_ISTAT = 0 := by
      rw [tickEvents_fst]
      rw [tickTime_frame st.year_reg _ MM67_ISTAT (by decide) (by decide) (by decide)
        (by decide) (by decide) (by decide) ?hy]
      · exact Function.update_same ..
      case hy =>
        intro y hy2
        rw [hyr] at hy2
        simp only [Option.some_inj] at hy2
        rw [← hy2]
        decide
    simp [h16]

/-- Witness for C7 at a concrete port, value and state. -/
theorem c7_status_write_clear_witness :
    ((0x310 - 0x300) &&& 0x1f = MM67_ISTAT) ∧
    (mm67_write wtm wst 0x310 0xFF).regs MM67_ISTAT = 0 :=
  ⟨by decide, (c7_status_write_clear wtm wst 0x310 0xFF rfl (by decide)).1⟩

/-! ## C8: the reset-counters command zeroes exactly the sub-second
registers -/

/-- C8: for every written value and prior state, a port write decoding to
the reset-counters command register (index 18) zeroes exactly the two
sub-second registers (milliseconds and hundredths/tenths) and leaves
every other of the 32 registers unchanged. -/
theorem c8_reset_counters_frame (tm : Tm) (st : Mm67) (port val : Nat)
    (hport : (port - 0x300) &&& 0x1f = MM67_RSTCTR) :
    (mm67_write tm st port val).regs MM67_MSEC = 0 ∧
    (mm67_write tm st port val).regs MM67_HUNTEN = 0 ∧
    ∀ j, j < MM67_REGS → j ≠ MM67_MSEC → j ≠ MM67_HUNTEN →
      (mm67_write tm st port val).regs j = st.regs j := by
  have hw : mm67_write tm st port val =
      { st with
          regs := Function.update (Function.update st.regs MM67_MSEC 0) MM67_HUNTEN 0 } := by
    unfold mm67_write
    rw [hport]
    norm_num [MM67_RSTCTR, MM67_REGS]
  rw [hw]
  refine ⟨by simp [Function.update, MM67_MSEC, MM67_HUNTEN], by simp, ?_⟩
  intro j hlt h0 h1
  simp only []
  rw [Function.update_noteq h1, Function.update_noteq h0]

/-- Witness for C8 at a concrete port, value and state. -/
theorem c8_reset_counters_frame_witness :
    ((0x312 - 0x300) &&& 0x1f = MM67_RSTCTR) ∧
    (mm67_write wtm wst 0x312 0xAB).regs MM67_MSEC = 0 ∧
    (mm67_write wtm wst 0x312 0xAB).regs MM67_DOW = wst.regs MM67_DOW :=
  ⟨by decide, (c8_reset_counters_frame wtm wst 0x312 0xAB (by decide)).1,
    (c8_reset_counters_frame wtm wst 0x312 0xAB (by decide)).2.2 MM67_DOW (by decide)
      (by decide) (by decide)⟩

/-! ## C9: which registers the alarm comparison consults -/

/-- C9: the tick engine's alarm comparison consults exactly the alarm
seconds, minutes, hours, day-of-month and month slots: the device stores
the year in the alarm day-of-month register (index 14); the alarm
day-of-week register (index 13) has no effect on whether the compare
event fires; and when register 14 is not marked don't-care, a firing
compare requires the current day-of-month byte to equal the stored year
byte. -/
theorem c9_alarm_fields :
    (∀ tm : Tm, (leading_edge_rtc_init tm).year_reg = some MM67_AL_DOM) ∧
    (∀ (regs : Regs) (v : Nat),
      compareFires (Function.update regs MM67_AL_DOW v) = compareFires regs) ∧
    (∀ regs : Regs, regs MM67_AL_DOM &&& MM67_AL_DONTCARE ≠ MM67_AL_DONTCARE →
      compareFires regs = true → regs MM67_DOM = regs MM67_AL_DOM) := by
  refine ⟨fun tm => rfl, fun regs v => ?_, fun regs hdc hf => ?_⟩
  · simp [compareFires, mm67_chkalrm, MM67_AL_SEC, MM67_AL_MIN, MM67_AL_HOUR,
      MM67_AL_DOM, MM67_AL_MON, MM67_AL_DOW, MM67_SEC, Function.update]
  · simp only [compareFires, mm67_chkalrm, MM67_AL_SEC, MM67_AL_MIN, MM67_AL_HOUR,
      MM67_AL_DOM, MM67_AL_MON, MM67_SEC, MM67_AL_DONTCARE, Bool.and_eq_true,
      Bool.or_eq_true, beq_iff_eq] at hf
    simp only [MM67_AL_DONTCARE] at hdc
    simp only [MM67_DOM, MM67_AL_DOM]
    norm_num at hf
    tauto

/-- Witness for C9: concrete instances of its two conditional parts. -/
theorem c9_alarm_fields_witness :
    compareFires (Function.update wregs MM67_AL_DOW 0x07) = compareFires wregs ∧
    (regsOfList [0, 0, 0, 0, 0, 0, 5, 0, 0, 0, 0xC0, 0xC0, 0xC0, 0, 5, 0xC0]) MM67_DOM =
      (regsOfList [0, 0, 0, 0, 0, 0, 5, 0, 0, 0, 0xC0, 0xC0, 0xC0, 0, 5, 0xC0]) MM67_AL_DOM :=
  ⟨c9_alarm_fields.2.1 wregs 0x07,
    c9_alarm_fields.2.2 (regsOfList [0, 0, 0, 0, 0, 0, 5, 0, 0, 0, 0xC0, 0xC0, 0xC0, 0, 5, 0xC0])
      (by decide) (by decide)⟩

/-! ## C10: no interrupt raised while the line is unconfigured -/

/-- C10: with the interrupt line at its initialization default `-1`, a
tick never raises the interrupt controller line and leaves the line
unconfigured (so no tick in any sequence raises it), while previously set
interrupt status bits are preserved (status accumulates via OR). -/
theorem c10_no_irq_when_unconfigured (st : Mm67) (hirq : st.irq = -1)
    (hyr : st.year_reg = some MM67_AL_DOM) :
    (mm67_tick st).2 = false ∧ (mm67_tick st).1.irq = -1 ∧
    ∀ i, i < 8 → (st.regs MM67_ISTAT).testBit i = true →
      ((mm67_tick st).1.regs MM67_ISTAT).testBit i = true := by
  have hist : (tickEvents st.year_reg st.regs).1 MM67_ISTAT = st.regs MM67_ISTAT := by
    rw [tickEvents_fst]
    refine tickTime_frame _ _ _ (by decide) (by decide) (by decide) (by decide)
      (by decide) (by decide) ?_
    intro y hy
    simp only [hyr, Option.some_inj] at hy
    rw [← hy]
    decide
  unfold mm67_tick
  dsimp only
  split
  · refine ⟨by simp [hirq], by simp [hirq], ?_⟩
    intro i hi hbit
    dsimp only
    rw [Function.update_same, hist]
    rw [(by norm_num : (256 : Nat) = 2 ^ 8), Nat.testBit_mod_two_pow, Nat.testBit_or]
    simp [hi, hbit]
  · refine ⟨rfl, by simp [hirq], ?_⟩
    intro i hi hbit
    dsimp only
    rw [hist]
    exact hbit

/-- Witness for C10 at a concrete state with a previously set status bit. -/
theorem c10_no_irq_when_unconfigured_witness :
    wst.irq = -1 ∧ (mm67_tick wst).2 = false ∧
    ((mm67_tick wst).1.regs MM67_ISTAT).testBit 0 = true :=
  ⟨rfl, (c10_no_irq_when_unconfigured wst rfl rfl).1,
    (c10_no_irq_when_unconfigured wst rfl rfl).2.2 0 (by decide) (by decide)⟩

/-! ## C1: event recording on a second-to-minute rollover tick -/

/-- State at `hh:mm:59` with both the second and the minute interrupt
control bits enabled and a non-matching, non-don't-care alarm. -/
def c1st : Mm67 :=
  { regs := regsOfList [0, 0, 0x59, 0, 0, 1, 1, 1, 0, 0, 0x33, 0, 0, 0, 0, 0, 0, 0x0C],
    irq := -1, year_reg := some MM67_AL_DOM }

/-- Counterexample to C1 as stated: on a tick where the second rolls over
to 0 and the minute increments, with both the second and minute control
bits enabled, only the minute event bit ends up set in the status
register — the second event bit does not (the event flag of `mm67_tick`
is overwritten, not accumulated, at each cascade level). -/
theorem c1_counterexample :
    c1st.regs MM67_ICTRL &&& MM67INT_SEC ≠ 0 ∧
    c1st.regs MM67_ICTRL &&& MM67INT_MIN ≠ 0 ∧
    (mm67_tick c1st).1.regs MM67_SEC = 0 ∧
    (mm67_tick c1st).1.regs MM67_MIN = RTC_BCDINC (c1st.regs MM67_MIN) 1 ∧
    ((mm67_tick c1st).1.regs MM67_ISTAT).testBit 3 = true ∧
    ((mm67_tick c1st).1.regs MM67_ISTAT).testBit 2 = false := by decide

/-- The month-rollover block leaves the event flag unchanged unless it
overwrites it with the month event. -/
theorem tickMonth_f (yr : Option Nat) (regs : Regs) (f : Nat) :
    (tickMonth yr regs f).2 = MM67INT_MON ∨ (tickMonth yr regs f).2 = f := by
  unfold tickMonth
  dsimp only
  split <;> dsimp only <;> split <;> simp

/-- The day block leaves the event flag unchanged unless it overwrites it
with the day, week or month event. -/
theorem tickDay_f (yr : Option Nat) (regs : Regs) (f : Nat) :
    (tickDay yr regs f).2 = MM67INT_MON ∨ (tickDay yr regs f).2 = MM67INT_WEEK ∨
    (tickDay yr regs f).2 = MM67INT_DAY ∨ (tickDay yr regs f).2 = f := by
  unfold tickDay
  dsimp only
  split <;> dsimp only <;> split <;>
    first
      | (rcases tickMonth_f _ _ _ with h | h <;>
          first
            | exact Or.inl h
            | (rw [h]; split_ifs <;> simp))
      | (split_ifs <;> simp)

/-- The hour block leaves the event flag unchanged unless it overwrites
it with a deeper event. -/
theorem tickHour_f (yr : Option Nat) (regs : Regs) (f : Nat) :
    (tickHour yr regs f).2 = MM67INT_MON ∨ (tickHour yr regs f).2 = MM67INT_WEEK ∨
    (tickHour yr regs f).2 = MM67INT_DAY ∨ (tickHour yr regs f).2 = MM67INT_HOUR ∨
    (tickHour yr regs f).2 = f := by
  unfold tickHour
  dsimp only
  split
  · rcases tickDay_f _ _ _ with h | h | h | h
    · exact Or.inl h
    · exact Or.inr (Or.inl h)
    · exact Or.inr (Or.inr (Or.inl h))
    · rw [h]; split_ifs <;> simp
  · dsimp only; split_ifs <;> simp

/-- The minute block leaves the event flag unchanged unless it overwrites
it with a deeper event. -/
theorem tickMin_f (yr : Option Nat) (regs : Regs) (f : Nat) :
    (tickMin yr regs f).2 = MM67INT_MON ∨ (tickMin yr regs f).2 = MM67INT_WEEK ∨
    (tickMin yr regs f).2 = MM67INT_DAY ∨ (tickMin yr regs f).2 = MM67INT_HOUR ∨
    (tickMin yr regs f).2 = MM67INT_MIN ∨ (tickMin yr regs f).2 = f := by
  unfold tickMin
  dsimp only
  split
  · rcases tickHour_f _ _ _ with h | h | h | h | h
    · exact Or.inl h
    · exact Or.inr (Or.inl h)
    · exact Or.inr (Or.inr (Or.inl h))
    · exact Or.inr (Or.inr (Or.inr (Or.inl h)))
    · rw [h]; split_ifs <;> simp
  · dsimp only; split_ifs <;> simp

/-- The event flag a tick produces is zero or exactly one of the six
rollover event masks: the cascade overwrites the flag, never ORs it. -/
theorem tickTime_f (yr : Option Nat) (regs : Regs) :
    (tickTime yr regs).2 = 0 ∨ (tickTime yr regs).2 = MM67INT_SEC ∨
    (tickTime yr regs).2 = MM67INT_MIN ∨ (tickTime yr regs).2 = MM67INT_HOUR ∨
    (tickTime yr regs).2 = MM67INT_DAY ∨ (tickTime yr regs).2 = MM67INT_WEEK ∨
    (tickTime yr regs).2 = MM67INT_MON := by
  unfold tickTime
  dsimp only
  split
  · rcases tickMin_f _ _ _ with h | h | h | h | h | h
    · exact Or.inr (Or.inr (Or.inr (Or.inr (Or.inr (Or.inr h)))))
    · exact Or.inr (Or.inr (Or.inr (Or.inr (Or.inr (Or.inl h)))))
    · exact Or.inr (Or.inr (Or.inr (Or.inr (Or.inl h))))
    · exact Or.inr (Or.inr (Or.inr (Or.inl h)))
    · exact Or.inr (Or.inr (Or.inl h))
    · rw [h]; split_ifs <;> simp
  · dsimp only; split_ifs <;> simp

/-- C1 (amended): each tick records at most one cascaded time-rollover
event — the event flag is overwritten, not accumulated, at each cascade
level, so the flag a tick ORs into the interrupt status register is
either zero or exactly one of the six rollover event masks (second,
minute, hour, day, week, month), apart from the compare bit.  In
particular, on a tick where the second rolls over to 0 and the minute
increments (without rolling over), with both the second and minute
control bits enabled, only the minute event bit is ORed into the
interrupt status register; every status bit other than the minute and
compare bits keeps its previous value. -/
theorem c1_single_event :
    (∀ (yr : Option Nat) (regs : Regs),
      (tickTime yr regs).2 = 0 ∨ (tickTime yr regs).2 = MM67INT_SEC ∨
      (tickTime yr regs).2 = MM67INT_MIN ∨ (tickTime yr regs).2 = MM67INT_HOUR ∨
      (tickTime yr regs).2 = MM67INT_DAY ∨ (tickTime yr regs).2 = MM67INT_WEEK ∨
      (tickTime yr regs).2 = MM67INT_MON) ∧
    (∀ (st : Mm67) (m : Nat), st.regs MM67_SEC = 0x59 →
      st.regs MM67_MIN = RTC_BCD m → m < 59 →
      st.regs MM67_ICTRL &&& MM67INT_SEC ≠ 0 →
      st.regs MM67_ICTRL &&& MM67INT_MIN ≠ 0 →
      ((mm67_tick st).1.regs MM67_ISTAT).testBit 3 = true ∧
      ∀ i, i < 8 → i ≠ 3 → i ≠ 0 →
        ((mm67_tick st).1.regs MM67_ISTAT).testBit i =
          (st.regs MM67_ISTAT).testBit i) := by
  refine ⟨tickTime_f, ?_⟩
  intro st m hsec hmin hm hsecEn hminEn
  have hv1 : RTC_BCDINC (0x59 : Nat) 1 % 256 = 0x60 := by decide
  have hv2 : RTC_BCDINC (RTC_BCD m) 1 % 256 = RTC_BCD (m + 1) := by
    rw [bcdinc_valid _ (bcd_valid m (by omega)), dcb_bcd m (by omega)]
  have hc1 : RTC_BCD 60 ≤ 0x60 := by decide
  have hc2 : ¬ RTC_BCD 60 ≤ RTC_BCD (m + 1) := by
    rw [bcd_ge_60_iff (m + 1) (by omega)]
    omega
  have key : tickTime st.year_reg st.regs =
      (Function.update (Function.update st.regs MM67_SEC (RTC_BCD 0)) MM67_MIN
        (RTC_BCD (m + 1)), MM67INT_MIN) := by
    unfold tickTime tickMin
    simp only [Function.update_same, Function.update_idem,
      Function.update_noteq (show MM67_MIN ≠ MM67_SEC from by decide),
      Function.update_noteq (show MM67_ICTRL ≠ MM67_SEC from by decide),
      Function.update_noteq (show MM67_ICTRL ≠ MM67_MIN from by decide),
      hsec, hmin, hv1, hv2, hc1, hc2, hminEn, if_true, if_false]
    rw [if_pos hminEn]
  have frameIstat :
      Function.update (Function.update st.regs MM67_SEC (RTC_BCD 0)) MM67_MIN
        (RTC_BCD (m + 1)) MM67_ISTAT = st.regs MM67_ISTAT := by
    rw [Function.update_noteq (show MM67_ISTAT ≠ MM67_MIN from by decide),
      Function.update_noteq (show MM67_ISTAT ≠ MM67_SEC from by decide)]
  unfold mm67_tick tickEvents
  dsimp only
  rw [key]
  dsimp only
  rw [frameIstat]
  by_cases hcf :
      compareFires (Function.update (Function.update st.regs MM67_SEC (RTC_BCD 0))
        MM67_MIN (RTC_BCD (m + 1))) = true
  · rw [if_pos hcf]
    rw [if_pos (show (MM67INT_MIN ||| MM67INT_COMPARE) ≠ 0 from by decide)]
    dsimp only
    rw [Function.update_same]
    constructor
    · rw [show (256 : Nat) = 2 ^ 8 from by norm_num, Nat.testBit_mod_two_pow,
        Nat.testBit_or, Nat.testBit_or,
        (by decide : (MM67INT_MIN : Nat).testBit 3 = true)]
      simp
    · intro i hi h3i h0i
      rw [show (256 : Nat) = 2 ^ 8 from by norm_num, Nat.testBit_mod_two_pow,
        Nat.testBit_or]
      have hf : (MM67INT_MIN ||| MM67INT_COMPARE : Nat).testBit i = false := by
        interval_cases i <;>
          first
            | decide
            | exact absurd rfl h0i
            | exact absurd rfl h3i
      simp [hf, hi]
  · rw [if_neg hcf]
    rw [if_pos (show (MM67INT_MIN : Nat) ≠ 0 from by decide)]
    dsimp only
    rw [Function.update_same]
    constructor
    · rw [show (256 : Nat) = 2 ^ 8 from by norm_num, Nat.testBit_mod_two_pow,
        Nat.testBit_or, (by decide : (MM67INT_MIN : Nat).testBit 3 = true)]
      simp
    · intro i hi h3i h0i
      rw [show (256 : Nat) = 2 ^ 8 from by norm_num, Nat.testBit_mod_two_pow,
        Nat.testBit_or]
      have hf : (MM67INT_MIN : Nat).testBit i = false := by
        interval_cases i <;>
          first
            | decide
            | exact absurd rfl h3i
      simp [hf, hi]

/-- Witness for the amended C1 at the concrete state `c1st`. -/
theorem c1_single_event_witness :
    c1st.regs MM67_SEC = 0x59 ∧
    ((mm67_tick c1st).1.regs MM67_ISTAT).testBit 3 = true ∧
    ((mm67_tick c1st).1.regs MM67_ISTAT).testBit 2 =
      (c1st.regs MM67_ISTAT).testBit 2 :=
  ⟨by decide,
    (c1_single_event.2 c1st 0 (by decide) (by decide) (by decide) (by decide)
      (by decide)).1,
    (c1_single_event.2 c1st 0 (by decide) (by decide) (by decide) (by decide)
      (by decide)).2 2 (by decide) (by decide) (by decide)⟩

/-! ## C2: all-don't-care alarms and the compare event -/

/-- State 2100-12-31 23:59:59 (stored year `0xC0`, which is also the
don't-care pattern) with every alarm register marked don't-care and an
all-zero control mask. -/
def c2st : Mm67 :=
  { regs := regsOfList [0, 0, 0x59, 0x59, 0x23, 0x07, 0x31, 0x12,
      0xC0, 0xC0, 0xC0, 0xC0, 0xC0, 0xC0, 0xC0, 0xC0, 0, 0],
    irq := -1, year_reg := some MM67_AL_DOM }

/-- Counterexample to C2 as stated: in `c2st` every alarm field holds the
don't-care sentinel, yet the tick does not record a compare event — the
year lives in the alarm day-of-month register, and this tick's
December-to-January rollover rewrites it (don't-care pattern `0xC0`
BCD-increments to `0xC1`, which the century clamp resets to `0x00`), so
the alarm day-of-month comparison fails. -/
theorem c2_counterexample :
    c2st.regs MM67_AL_SEC &&& MM67_AL_DONTCARE = MM67_AL_DONTCARE ∧
    c2st.regs MM67_AL_MIN &&& MM67_AL_DONTCARE = MM67_AL_DONTCARE ∧
    c2st.regs MM67_AL_HOUR &&& MM67_AL_DONTCARE = MM67_AL_DONTCARE ∧
    c2st.regs MM67_AL_DOW &&& MM67_AL_DONTCARE = MM67_AL_DONTCARE ∧
    c2st.regs MM67_AL_DOM &&& MM67_AL_DONTCARE = MM67_AL_DONTCARE ∧
    c2st.regs MM67_AL_MON &&& MM67_AL_DONTCARE = MM67_AL_DONTCARE ∧
    ((mm67_tick c2st).1.regs MM67_ISTAT).testBit 0 = false ∧
    (mm67_tick c2st).1.regs MM67_ISTAT = 0 := by decide

/-- C2 (amended): for every register-file state in which all alarm fields
hold the don't-care sentinel, every tick that leaves the alarm
day-of-month (year) register unchanged records a compare event, setting
the compare bit in the interrupt status register, regardless of the
interrupt control (mask) register. -/
theorem c2_dontcare_compare (st : Mm67)
    (hyr : st.year_reg = some MM67_AL_DOM)
    (h10 : st.regs MM67_AL_SEC &&& MM67_AL_DONTCARE = MM67_AL_DONTCARE)
    (h11 : st.regs MM67_AL_MIN &&& MM67_AL_DONTCARE = MM67_AL_DONTCARE)
    (h12 : st.regs MM67_AL_HOUR &&& MM67_AL_DONTCARE = MM67_AL_DONTCARE)
    (h13 : st.regs MM67_AL_DOW &&& MM67_AL_DONTCARE = MM67_AL_DONTCARE)
    (h14 : st.regs MM67_AL_DOM &&& MM67_AL_DONTCARE = MM67_AL_DONTCARE)
    (h15 : st.regs MM67_AL_MON &&& MM67_AL_DONTCARE = MM67_AL_DONTCARE)
    (hkeep : (tickTime st.year_reg st.regs).1 MM67_AL_DOM = st.regs MM67_AL_DOM) :
    ((mm67_tick st).1.regs MM67_ISTAT).testBit 0 = true := by
  have hy14 : ∀ (j : Nat), j ≠ 14 → ∀ y, st.year_reg = some y → j ≠ y := by
    intro j hj y hy
    rw [hyr] at hy
    simp only [Option.some_inj] at hy
    rw [← hy]
    exact hj
  have hfr : ∀ (a : Nat), a = MM67_AL_SEC ∨ a = MM67_AL_MIN ∨ a = MM67_AL_HOUR ∨
      a = MM67_AL_MON →
      (tickTime st.year_reg st.regs).1 a = st.regs a := by
    intro a ha
    refine tickTime_frame _ _ _ ?_ ?_ ?_ ?_ ?_ ?_ (hy14 a ?_) <;>
      rcases ha with h | h | h | h <;> rw [h] <;> decide
  have hchk : ∀ (a : Nat),
      (tickTime st.year_reg st.regs).1 a &&& MM67_AL_DONTCARE = MM67_AL_DONTCARE →
      mm67_chkalrm (tickTime st.year_reg st.regs).1 a = true := by
    intro a hdca
    unfold mm67_chkalrm
    rw [hdca]
    simp
  have hcf : compareFires (tickTime st.year_reg st.regs).1 = true := by
    unfold compareFires
    rw [hchk MM67_AL_SEC (by rw [hfr MM67_AL_SEC (by decide)]; exact h10),
      hchk MM67_AL_MIN (by rw [hfr MM67_AL_MIN (by decide)]; exact h11),
      hchk MM67_AL_HOUR (by rw [hfr MM67_AL_HOUR (by decide)]; exact h12),
      hchk MM67_AL_DOM (by rw [hkeep]; exact h14),
      hchk MM67_AL_MON (by rw [hfr MM67_AL_MON (by decide)]; exact h15)]
    rfl
  have hne : (tickTime st.year_reg st.regs).2 ||| MM67INT_COMPARE ≠ 0 := by
    intro h
    have := congrArg (fun n => Nat.testBit n 0) h
    simp only [Nat.testBit_or] at this
    rw [(by decide : (MM67INT_COMPARE : Nat).testBit 0 = true)] at this
    simp at this
  unfold mm67_tick tickEvents
  dsimp only
  rw [hcf]
  rw [if_pos rfl]
  rw [if_pos hne]
  dsimp only
  rw [Function.update_same]
  rw [show (256 : Nat) = 2 ^ 8 from by norm_num, Nat.testBit_mod_two_pow,
    Nat.testBit_or, Nat.testBit_or,
    (by decide : (MM67INT_COMPARE : Nat).testBit 0 = true)]
  simp

/-- Witness for the amended C2: an all-don't-care state away from any
month rollover. -/
theorem c2_dontcare_compare_witness :
    (regsOfList [0, 0, 0, 0, 0, 1, 1, 1, 0xC0, 0xC0, 0xC0, 0xC0, 0xC0, 0xC0,
      0xC0, 0xC0, 0, 0]) MM67_AL_SEC &&& MM67_AL_DONTCARE = MM67_AL_DONTCARE ∧
    ((mm67_tick
      { regs := regsOfList [0, 0, 0, 0, 0, 1, 1, 1, 0xC0, 0xC0, 0xC0, 0xC0, 0xC0, 0xC0,
          0xC0, 0xC0, 0, 0], irq := -1, year_reg := some MM67_AL_DOM }).1.regs
      MM67_ISTAT).testBit 0 = true :=
  ⟨by decide,
    c2_dontcare_compare
      { regs := regsOfList [0, 0, 0, 0, 0, 1, 1, 1, 0xC0, 0xC0, 0xC0, 0xC0, 0xC0, 0xC0,
          0xC0, 0xC0, 0, 0], irq := -1, year_reg := some MM67_AL_DOM }
      rfl (by decide) (by decide) (by decide) (by decide) (by decide) (by decide)
      (by decide)⟩

/-! ## C3: the 23:59:59 full-day rollover -/

/-- State 1999-01-31 23:59:59 (last day of January). -/
def c3st : Mm67 :=
  { regs := regsOfList [0, 0, 0x59, 0x59, 0x23, 0x01, 0x31, 0x01,
      0, 0, 1, 1, 1, 1, 0x19, 1, 0, 0],
    irq := -1, year_reg := some MM67_AL_DOM }

/-- Counterexample to C3 as stated: from 23:59:59 on the last day of a
month the tick advances to 00:00:00 but resets the day-of-month to 1
instead of incrementing it. -/
theorem c3_counterexample :
    c3st.regs MM67_SEC = 0x59 ∧ c3st.regs MM67_MIN = 0x59 ∧
    c3st.regs MM67_HOUR = 0x23 ∧
    (mm67_tick c3st).1.regs MM67_SEC = 0 ∧ (mm67_tick c3st).1.regs MM67_MIN = 0 ∧
    (mm67_tick c3st).1.regs MM67_HOUR = 0 ∧
    (mm67_tick c3st).1.regs MM67_DOM ≠ RTC_BCDINC (c3st.regs MM67_DOM) 1 ∧
    (mm67_tick c3st).1.regs MM67_DOM = RTC_BCD 1 := by decide

/-- C3 (amended): for every state holding time 23:59:59 in valid BCD on a
day that is not the last day of the current month, one tick yields
00:00:00 with the day-of-month incremented by one in BCD, the day-of-week
incremented by one wrapping from 7 back to 1, and the month unchanged. -/
theorem c3_full_day_rollover (st : Mm67) (w d : Nat)
    (hyr : st.year_reg = some MM67_AL_DOM)
    (hsec : st.regs MM67_SEC = 0x59) (hmin : st.regs MM67_MIN = 0x59)
    (hhour : st.regs MM67_HOUR = 0x23)
    (hdow : st.regs MM67_DOW = RTC_BCD w) (hw1 : 1 ≤ w) (hw7 : w ≤ 7)
    (hdom : st.regs MM67_DOM = RTC_BCD d) (hd1 : 1 ≤ d)
    (hdays : d + 1 ≤ nvr_get_days (RTC_DCB (st.regs MM67_MON))
      (RTC_DCB (st.regs MM67_AL_DOM) + 80 + 1900)) :
    (mm67_tick st).1.regs MM67_SEC = RTC_BCD 0 ∧
    (mm67_tick st).1.regs MM67_MIN = RTC_BCD 0 ∧
    (mm67_tick st).1.regs MM67_HOUR = RTC_BCD 0 ∧
    (mm67_tick st).1.regs MM67_DOW = (if w = 7 then RTC_BCD 1 else RTC_BCD (w + 1)) ∧
    (mm67_tick st).1.regs MM67_DOM = RTC_BCD (d + 1) ∧
    (mm67_tick st).1.regs MM67_MON = st.regs MM67_MON := by
  have hd30 : d ≤ 30 := by
    have := nvr_get_days_le (RTC_DCB (st.regs MM67_MON))
      (RTC_DCB (st.regs MM67_AL_DOM) + 80 + 1900)
    omega
  have hv1 : RTC_BCDINC (0x59 : Nat) 1 % 256 = 0x60 := by decide
  have hv2 : RTC_BCDINC (0x23 : Nat) 1 % 256 = 0x24 := by decide
  have hvw : RTC_BCDINC (RTC_BCD w) 1 % 256 = RTC_BCD (w + 1) := by
    rw [bcdinc_valid _ (bcd_valid w (by omega)), dcb_bcd w (by omega)]
  have hvd : RTC_BCDINC (RTC_BCD d) 1 % 256 = RTC_BCD (d + 1) := by
    rw [bcdinc_valid _ (bcd_valid d (by omega)), dcb_bcd d (by omega)]
  have hc60 : RTC_BCD 60 ≤ (0x60 : Nat) := by decide
  have hc24 : RTC_BCD 24 ≤ (0x24 : Nat) := by decide
  have hdcb : RTC_DCB (RTC_BCD (d + 1)) = d + 1 := dcb_bcd (d + 1) (by omega)
  have hcd : ¬ (nvr_get_days (RTC_DCB (st.regs MM67_MON))
      (RTC_DCB (st.regs MM67_AL_DOM) + 80 + 1900) < d + 1) := by omega
  have e2 : (mm67_tick st).1.regs MM67_SEC = (tickTime st.year_reg st.regs).1 MM67_SEC :=
    mm67_tick_regs_of_ne st MM67_SEC (by decide)
  have e3 : (mm67_tick st).1.regs MM67_MIN = (tickTime st.year_reg st.regs).1 MM67_MIN :=
    mm67_tick_regs_of_ne st MM67_MIN (by decide)
  have e4 : (mm67_tick st).1.regs MM67_HOUR = (tickTime st.year_reg st.regs).1 MM67_HOUR :=
    mm67_tick_regs_of_ne st MM67_HOUR (by decide)
  have e5 : (mm67_tick st).1.regs MM67_DOW = (tickTime st.year_reg st.regs).1 MM67_DOW :=
    mm67_tick_regs_of_ne st MM67_DOW (by decide)
  have e6 : (mm67_tick st).1.regs MM67_DOM = (tickTime st.year_reg st.regs).1 MM67_DOM :=
    mm67_tick_regs_of_ne st MM67_DOM (by decide)
  have e7 : (mm67_tick st).1.regs MM67_MON = (tickTime st.year_reg st.regs).1 MM67_MON :=
    mm67_tick_regs_of_ne st MM67_MON (by decide)
  rw [e2, e3, e4, e5, e6, e7]
  unfold tickTime tickMin tickHour tickDay
  simp only [MM67_SEC, MM67_MIN, MM67_HOUR, MM67_DOW, MM67_DOM, MM67_MON, MM67_ICTRL,
    MM67_AL_DOM] at hsec hmin hhour hdow hdom hdays hyr hcd ⊢
  by_cases hw : w = 7
  · subst hw
    have hvw7 : RTC_BCDINC (RTC_BCD 7) 1 % 256 = RTC_BCD 8 := by decide
    have hcw : RTC_BCD 7 < RTC_BCD 8 := by decide
    simp [Function.update, mm67_year, hyr, hsec, hmin, hhour, hdow, hdom, hv1, hv2,
      hvw7, hvd, hc60, hc24, hcw, hdcb, hcd]
  · have hcw : ¬ (RTC_BCD 7 < RTC_BCD (w + 1)) := by
      rw [bcd_gt_7_iff (w + 1) (by omega)]
      omega
    simp [Function.update, mm67_year, hyr, hsec, hmin, hhour, hdow, hdom, hv1, hv2,
      hvw, hvd, hc60, hc24, hcw, hdcb, hcd, hw]

/-- State 2026-05-15 23:59:59 (not a month-end day). -/
def c3wst : Mm67 :=
  { regs := regsOfList [0, 0, 0x59, 0x59, 0x23, 0x05, 0x15, 0x05,
      0, 0, 1, 1, 1, 1, 0x46, 1, 0, 0],
    irq := -1, year_reg := some MM67_AL_DOM }

/-- Witness for the amended C3: 2026-05-15 23:59:59, a Thursday. -/
theorem c3_full_day_rollover_witness :
    c3wst.regs MM67_SEC = 0x59 ∧
    (mm67_tick c3wst).1.regs MM67_DOM = RTC_BCD 16 ∧
    (mm67_tick c3wst).1.regs MM67_DOW = RTC_BCD 6 := by
  refine ⟨by decide, ?_, ?_⟩
  · exact (c3_full_day_rollover c3wst 5 15 rfl (by decide) (by decide) (by decide)
      (by decide) (by decide) (by decide) (by decide) (by decide) (by decide)).2.2.2.2.1
  · have h := (c3_full_day_rollover c3wst 5 15 rfl (by decide) (by decide) (by decide)
      (by decide) (by decide) (by decide) (by decide) (by decide) (by decide)).2.2.2.1
    rw [h]
    decide

/-! ## C4: leap-year February length from the decoded month and base-80
year -/

/-- C4: with the stored year `0x20` (calendar year
`RTC_DCB 0x20 + 80 + 1900 = 2000`, a leap year) and month February, a
day-end tick at 23:59:59 moves day 28 to day 29 with the month still
February, and only the day-29 tick resets the day-of-month to 1 and
advances the month to March: the days-in-month bound comes from the
binary-decoded month and the binary year rebuilt from the base-80 BCD
year plus 1900. -/
theorem c4_leap_february (st : Mm67)
    (hyr : st.year_reg = some MM67_AL_DOM)
    (hsec : st.regs MM67_SEC = 0x59) (hmin : st.regs MM67_MIN = 0x59)
    (hhour : st.regs MM67_HOUR = 0x23)
    (hmon : st.regs MM67_MON = 0x02) (hyear : st.regs MM67_AL_DOM = 0x20) :
    (st.regs MM67_DOM = 0x28 →
      (mm67_tick st).1.regs MM67_DOM = 0x29 ∧ (mm67_tick st).1.regs MM67_MON = 0x02) ∧
    (st.regs MM67_DOM = 0x29 →
      (mm67_tick st).1.regs MM67_DOM = 0x01 ∧ (mm67_tick st).1.regs MM67_MON = 0x03) := by
  have hv1 : RTC_BCDINC (0x59 : Nat) 1 % 256 = 0x60 := by decide
  have hv2 : RTC_BCDINC (0x23 : Nat) 1 % 256 = 0x24 := by decide
  have hc60 : RTC_BCD 60 ≤ (0x60 : Nat) := by decide
  have hc24 : RTC_BCD 24 ≤ (0x24 : Nat) := by decide
  have e6 : (mm67_tick st).1.regs MM67_DOM = (tickTime st.year_reg st.regs).1 MM67_DOM :=
    mm67_tick_regs_of_ne st MM67_DOM (by decide)
  have e7 : (mm67_tick st).1.regs MM67_MON = (tickTime st.year_reg st.regs).1 MM67_MON :=
    mm67_tick_regs_of_ne st MM67_MON (by decide)
  rw [e6, e7]
  unfold tickTime tickMin tickHour tickDay tickMonth
  simp only [MM67_SEC, MM67_MIN, MM67_HOUR, MM67_DOW, MM67_DOM, MM67_MON, MM67_ICTRL,
    MM67_AL_DOM] at hsec hmin hhour hmon hyear hyr ⊢
  constructor <;> intro hdom <;>
    by_cases hdw : RTC_BCD 7 < RTC_BCDINC (st.regs 5) 1 % 256
  · simp [Function.update, mm67_year, hyr, hsec, hmin, hhour, hmon, hyear, hdom,
      hv1, hv2, hc60, hc24, hdw,
      (by decide : RTC_BCDINC (0x28 : Nat) 1 % 256 = 0x29),
      (by decide : ¬ (nvr_get_days (RTC_DCB 0x02) (RTC_DCB 0x20 + 80 + 1900) <
        RTC_DCB 0x29))]
  · simp [Function.update, mm67_year, hyr, hsec, hmin, hhour, hmon, hyear, hdom,
      hv1, hv2, hc60, hc24, hdw,
      (by decide : RTC_BCDINC (0x28 : Nat) 1 % 256 = 0x29),
      (by decide : ¬ (nvr_get_days (RTC_DCB 0x02) (RTC_DCB 0x20 + 80 + 1900) <
        RTC_DCB 0x29))]
  · simp [Function.update, mm67_year, hyr, hsec, hmin, hhour, hmon, hyear, hdom,
      hv1, hv2, hc60, hc24, hdw,
      (by decide : RTC_BCDINC (0x29 : Nat) 1 % 256 = 0x30),
      (by decide : nvr_get_days (RTC_DCB 0x02) (RTC_DCB 0x20 + 80 + 1900) <
        RTC_DCB 0x30),
      (by decide : RTC_BCDINC (0x02 : Nat) 1 % 256 = 0x03),
      (by decide : ¬ (RTC_BCD 12 < (0x03 : Nat))),
      (by decide : RTC_BCD 1 = (0x01 : Nat))]
  · simp [Function.update, mm67_year, hyr, hsec, hmin, hhour, hmon, hyear, hdom,
      hv1, hv2, hc60, hc24, hdw,
      (by decide : RTC_BCDINC (0x29 : Nat) 1 % 256 = 0x30),
      (by decide : nvr_get_days (RTC_DCB 0x02) (RTC_DCB 0x20 + 80 + 1900) <
        RTC_DCB 0x30),
      (by decide : RTC_BCDINC (0x02 : Nat) 1 % 256 = 0x03),
      (by decide : ¬ (RTC_BCD 12 < (0x03 : Nat))),
      (by decide : RTC_BCD 1 = (0x01 : Nat))]

/-- State 2000-02-`dom` 23:59:59. -/
def c4wst (dom : Nat) : Mm67 :=
  { regs := regsOfList [0, 0, 0x59, 0x59, 0x23, 0x01, dom, 0x02,
      0, 0, 1, 1, 1, 1, 0x20, 1, 0, 0],
    irq := -1, year_reg := some MM67_AL_DOM }

/-- Witness for C4 at concrete states for both days. -/
theorem c4_leap_february_witness :
    (mm67_tick (c4wst 0x28)).1.regs MM67_DOM = 0x29 ∧
    (mm67_tick (c4wst 0x29)).1.regs MM67_MON = 0x03 :=
  ⟨((c4_leap_february (c4wst 0x28) rfl (by decide) (by decide) (by decide) (by decide)
      (by decide)).1 (by decide)).1,
    ((c4_leap_february (c4wst 0x29) rfl (by decide) (by decide) (by decide) (by decide)
      (by decide)).2 (by decide)).2⟩

/-! ## C5: century wrap of the year register -/

/-- C5: on the tick whose month wraps from 12 to 1 (here
2079-12-31 23:59:59 with stored year `0x99`), the year register is
BCD-incremented and the century clamp rolls `0x99` over to `0x00`. -/
theorem c5_century_wrap (st : Mm67)
    (hyr : st.year_reg = some MM67_AL_DOM)
    (hsec : st.regs MM67_SEC = 0x59) (hmin : st.regs MM67_MIN = 0x59)
    (hhour : st.regs MM67_HOUR = 0x23) (hdom : st.regs MM67_DOM = 0x31)
    (hmon : st.regs MM67_MON = 0x12) (hyear : st.regs MM67_AL_DOM = 0x99) :
    (mm67_tick st).1.regs MM67_MON = 0x01 ∧
    (mm67_tick st).1.regs MM67_AL_DOM = 0x00 ∧
    (mm67_tick st).1.regs MM67_DOM = 0x01 := by
  have hv1 : RTC_BCDINC (0x59 : Nat) 1 % 256 = 0x60 := by decide
  have hv2 : RTC_BCDINC (0x23 : Nat) 1 % 256 = 0x24 := by decide
  have hc60 : RTC_BCD 60 ≤ (0x60 : Nat) := by decide
  have hc24 : RTC_BCD 24 ≤ (0x24 : Nat) := by decide
  have e6 : (mm67_tick st).1.regs MM67_DOM = (tickTime st.year_reg st.regs).1 MM67_DOM :=
    mm67_tick_regs_of_ne st MM67_DOM (by decide)
  have e7 : (mm67_tick st).1.regs MM67_MON = (tickTime st.year_reg st.regs).1 MM67_MON :=
    mm67_tick_regs_of_ne st MM67_MON (by decide)
  have e14 : (mm67_tick st).1.regs MM67_AL_DOM =
      (tickTime st.year_reg st.regs).1 MM67_AL_DOM :=
    mm67_tick_regs_of_ne st MM67_AL_DOM (by decide)
  rw [e6, e7, e14]
  unfold tickTime tickMin tickHour tickDay tickMonth tickYear
  simp only [MM67_SEC, MM67_MIN, MM67_HOUR, MM67_DOW, MM67_DOM, MM67_MON, MM67_ICTRL,
    MM67_AL_DOM] at hsec hmin hhour hdom hmon hyear hyr ⊢
  by_cases hdw : RTC_BCD 7 < RTC_BCDINC (st.regs 5) 1 % 256 <;>
    simp [Function.update, mm67_year, hyr, hsec, hmin, hhour, hdom, hmon, hyear,
      hv1, hv2, hc60, hc24, hdw,
      (by decide : RTC_BCDINC (0x31 : Nat) 1 % 256 = 0x32),
      (by decide : nvr_get_days (RTC_DCB 0x12) (RTC_DCB 0x99 + 80 + 1900) <
        RTC_DCB 0x32),
      (by decide : RTC_BCDINC (0x12 : Nat) 1 % 256 = 0x13),
      (by decide : RTC_BCD 12 < (0x13 : Nat)),
      (by decide : RTC_BCDINC (0x99 : Nat) 1 % 256 = 0xA0),
      (by decide : RTC_BCD 100 ≤ (0xA0 : Nat)),
      (by decide : RTC_BCD 1 = (0x01 : Nat)),
      (by decide : RTC_BCD 0 = (0x00 : Nat))]

/-- State 2079-12-31 23:59:59 with stored year `0x99`. -/
def c5wst : Mm67 :=
  { regs := regsOfList [0, 0, 0x59, 0x59, 0x23, 0x07, 0x31, 0x12,
      0, 0, 1, 1, 1, 1, 0x99, 1, 0, 0],
    irq := -1, year_reg := some MM67_AL_DOM }

/-- Witness for C5 at the concrete state 2079-12-31 23:59:59. -/
theorem c5_century_wrap_witness :
    c5wst.regs MM67_AL_DOM = 0x99 ∧ (mm67_tick c5wst).1.regs MM67_AL_DOM = 0x00 :=
  ⟨by decide,
    (c5_century_wrap c5wst rfl (by decide) (by decide) (by decide) (by decide)
      (by decide) (by decide)).2.1⟩

/-! ## C6: BCD validity of the time fields -/

/-- Well-formed host time, per the collaborator contract of the spec:
month `0–11`, weekday `0–6`, year counted from 1900 with the base-80
encoding in range. -/
def TmWf (tm : Tm) : Prop :=
  tm.tm_sec < 60 ∧ tm.tm_min < 60 ∧ tm.tm_hour < 24 ∧ tm.tm_wday < 7 ∧
    1 ≤ tm.tm_mday ∧ tm.tm_mday ≤ 31 ∧ tm.tm_mon < 12 ∧ 80 ≤ tm.tm_year

instance (tm : Tm) : Decidable (TmWf tm) :=
  inferInstanceAs (Decidable (_ ∧ _))

/-- All seven time-field registers (seconds, minutes, hours, day-of-week,
day-of-month, month, and the year register) hold valid BCD. -/
def RegsWf (regs : Regs) : Prop :=
  ValidBCD (regs MM67_SEC) ∧ ValidBCD (regs MM67_MIN) ∧ ValidBCD (regs MM67_HOUR) ∧
    ValidBCD (regs MM67_DOW) ∧ ValidBCD (regs MM67_DOM) ∧ ValidBCD (regs MM67_MON) ∧
    ValidBCD (regs MM67_AL_DOM)

instance (regs : Regs) : Decidable (RegsWf regs) :=
  inferInstanceAs (Decidable (_ ∧ _))

/-- Device-level well-formedness: the year lives in the alarm day-of-month
register and all time fields are valid BCD. -/
def TimeWf (st : Mm67) : Prop :=
  st.year_reg = some MM67_AL_DOM ∧ RegsWf st.regs

/-- Helper for the frame lemmas with the year register fixed at index 14. -/
theorem hyNe (j : Nat) (hj : j ≠ MM67_AL_DOM) :
    ∀ y, (some MM67_AL_DOM : Option Nat) = some y → j ≠ y := by
  intro y hy
  injection hy with h
  rw [← h]
  exact hj

theorem bcd_mod_valid (v : Nat) (h : v < 100) : ValidBCD (RTC_BCD v % 256) := by
  rw [Nat.mod_eq_of_lt (bcd_lt_256 v (by omega))]
  exact bcd_valid v h

/-- The year-increment block keeps the year register valid BCD. -/
theorem tickYear_valid (regs : Regs) (h14 : ValidBCD (regs MM67_AL_DOM)) :
    ValidBCD (tickYear (some MM67_AL_DOM) regs MM67_AL_DOM) := by
  have hd := validBCD_dcb_lt _ h14
  unfold tickYear
  dsimp only
  rw [bcdinc_valid _ h14, Function.update_same]
  by_cases hc : RTC_BCD 100 ≤ RTC_BCD (RTC_DCB (regs MM67_AL_DOM) + 1)
  · rw [if_pos hc, Function.update_same]
    exact bcd_valid 0 (by omega)
  · rw [if_neg hc, Function.update_same]
    refine bcd_valid _ ?_
    have := bcd_ge_100_iff (RTC_DCB (regs MM67_AL_DOM) + 1) (by omega)
    omega

/-- The month-rollover block preserves the time-field validity. -/
theorem tickMonth_tw (regs : Regs) (f : Nat)
    (h2 : ValidBCD (regs MM67_SEC)) (h3 : ValidBCD (regs MM67_MIN))
    (h4 : ValidBCD (regs MM67_HOUR)) (h5 : ValidBCD (regs MM67_DOW))
    (h7 : ValidBCD (regs MM67_MON)) (h14 : ValidBCD (regs MM67_AL_DOM)) :
    RegsWf (tickMonth (some MM67_AL_DOM) regs f).1 := by
  have hm := validBCD_dcb_lt _ h7
  unfold tickMonth
  dsimp only
  rw [Function.update_noteq (show MM67_MON ≠ MM67_DOM from by decide),
    bcdinc_valid _ h7, Function.update_same]
  by_cases hc : RTC_BCD 12 < RTC_BCD (RTC_DCB (regs MM67_MON) + 1)
  · rw [if_pos hc]
    dsimp only
    have hread : ∀ j, j ≠ MM67_MON → j ≠ MM67_DOM →
        Function.update (Function.update (Function.update regs MM67_DOM (RTC_BCD 1))
          MM67_MON (RTC_BCD (RTC_DCB (regs MM67_MON) + 1))) MM67_MON (RTC_BCD 1) j =
        regs j := by
      intro j hj7 hj6
      rw [Function.update_noteq hj7, Function.update_noteq hj7,
        Function.update_noteq hj6]
    refine ⟨?_, ?_, ?_, ?_, ?_, ?_, ?_⟩
    · rw [tickYear_frame _ _ _ (hyNe MM67_SEC (by decide)), hread MM67_SEC (by decide)
        (by decide)]
      exact h2
    · rw [tickYear_frame _ _ _ (hyNe MM67_MIN (by decide)), hread MM67_MIN (by decide)
        (by decide)]
      exact h3
    · rw [tickYear_frame _ _ _ (hyNe MM67_HOUR (by decide)), hread MM67_HOUR (by decide)
        (by decide)]
      exact h4
    · rw [tickYear_frame _ _ _ (hyNe MM67_DOW (by decide)), hread MM67_DOW (by decide)
        (by decide)]
      exact h5
    · rw [tickYear_frame _ _ _ (hyNe MM67_DOM (by decide))]
      rw [Function.update_noteq (show MM67_DOM ≠ MM67_MON from by decide),
        Function.update_noteq (show MM67_DOM ≠ MM67_MON from by decide),
        Function.update_same]
      exact bcd_valid 1 (by omega)
    · rw [tickYear_frame _ _ _ (hyNe MM67_MON (by decide)), Function.update_same]
      exact bcd_valid 1 (by omega)
    · refine tickYear_valid _ ?_
      rw [hread MM67_AL_DOM (by decide) (by decide)]
      exact h14
  · rw [if_neg hc]
    dsimp only
    have hread : ∀ j, j ≠ MM67_MON → j ≠ MM67_DOM →
        Function.update (Function.update regs MM67_DOM (RTC_BCD 1)) MM67_MON
          (RTC_BCD (RTC_DCB (regs MM67_MON) + 1)) j = regs j := by
      intro j hj7 hj6
      rw [Function.update_noteq hj7, Function.update_noteq hj6]
    have hmle : RTC_DCB (regs MM67_MON) + 1 ≤ 12 := by
      have := bcd_gt_12_iff (RTC_DCB (regs MM67_MON) + 1) (by omega)
      omega
    refine ⟨?_, ?_, ?_, ?_, ?_, ?_, ?_⟩
    · rw [hread MM67_SEC (by decide) (by decide)]; exact h2
    · rw [hread MM67_MIN (by decide) (by decide)]; exact h3
    · rw [hread MM67_HOUR (by decide) (by decide)]; exact h4
    · rw [hread MM67_DOW (by decide) (by decide)]; exact h5
    · rw [Function.update_noteq (show MM67_DOM ≠ MM67_MON from by decide),
        Function.update_same]
      exact bcd_valid 1 (by omega)
    · rw [Function.update_same]
      exact bcd_valid _ (by omega)
    · rw [hread MM67_AL_DOM (by decide) (by decide)]; exact h14

/-- The day block preserves the time-field validity. -/
theorem tickDay_tw (regs : Regs) (f : Nat)
    (h2 : ValidBCD (regs MM67_SEC)) (h3 : ValidBCD (regs MM67_MIN))
    (h5 : ValidBCD (regs MM67_DOW)) (h6 : ValidBCD (regs MM67_DOM))
    (h7 : ValidBCD (regs MM67_MON)) (h14 : ValidBCD (regs MM67_AL_DOM)) :
    RegsWf (tickDay (some MM67_AL_DOM) regs f).1 := by
  have hw := validBCD_dcb_lt _ h5
  have hd := validBCD_dcb_lt _ h6
  have hb0 : ValidBCD (RTC_BCD 0) := bcd_valid 0 (by omega)
  have hb1 : ValidBCD (RTC_BCD 1) := bcd_valid 1 (by omega)
  have g2 : ValidBCD (regs 2) := h2
  have g3 : ValidBCD (regs 3) := h3
  have g5 : ValidBCD (regs 5) := h5
  have g6 : ValidBCD (regs 6) := h6
  have g7 : ValidBCD (regs 7) := h7
  have g14 : ValidBCD (regs 14) := h14
  have hv5 : RTC_BCDINC (regs MM67_DOW) 1 % 256 = RTC_BCD (RTC_DCB (regs MM67_DOW) + 1) :=
    bcdinc_valid _ h5
  have hv6 : RTC_BCDINC (regs MM67_DOM) 1 % 256 = RTC_BCD (RTC_DCB (regs MM67_DOM) + 1) :=
    bcdinc_valid _ h6
  have hdcb6 : RTC_DCB (RTC_BCD (RTC_DCB (regs MM67_DOM) + 1)) =
      RTC_DCB (regs MM67_DOM) + 1 := dcb_bcd _ (by omega)
  unfold tickDay mm67_year
  dsimp only
  simp only [Function.update_same,
    Function.update_noteq (show MM67_SEC ≠ MM67_HOUR from by decide),
    Function.update_noteq (show MM67_SEC ≠ MM67_DOW from by decide),
    Function.update_noteq (show MM67_SEC ≠ MM67_DOM from by decide),
    Function.update_noteq (show MM67_MIN ≠ MM67_HOUR from by decide),
    Function.update_noteq (show MM67_MIN ≠ MM67_DOW from by decide),
    Function.update_noteq (show MM67_MIN ≠ MM67_DOM from by decide),
    Function.update_noteq (show MM67_HOUR ≠ MM67_DOW from by decide),
    Function.update_noteq (show MM67_HOUR ≠ MM67_DOM from by decide),
    Function.update_noteq (show MM67_DOW ≠ MM67_HOUR from by decide),
    Function.update_noteq (show MM67_DOW ≠ MM67_DOM from by decide),
    Function.update_noteq (show MM67_DOM ≠ MM67_HOUR from by decide),
    Function.update_noteq (show MM67_DOM ≠ MM67_DOW from by decide),
    Function.update_noteq (show MM67_MON ≠ MM67_HOUR from by decide),
    Function.update_noteq (show MM67_MON ≠ MM67_DOW from by decide),
    Function.update_noteq (show MM67_MON ≠ MM67_DOM from by decide),
    Function.update_noteq (show MM67_AL_DOM ≠ MM67_HOUR from by decide),
    Function.update_noteq (show MM67_AL_DOM ≠ MM67_DOW from by decide),
    Function.update_noteq (show MM67_AL_DOM ≠ MM67_DOM from by decide),
    Function.update_noteq (show MM67_ICTRL ≠ MM67_HOUR from by decide),
    Function.update_noteq (show MM67_ICTRL ≠ MM67_DOW from by decide),
    Function.update_noteq (show MM67_ICTRL ≠ MM67_DOM from by decide),
    hv5, hv6, hdcb6]
  by_cases hcw : RTC_BCD 7 < RTC_BCD (RTC_DCB (regs MM67_DOW) + 1)
  · rw [if_pos hcw]
    dsimp only
    simp only [Function.update_same,
      Function.update_noteq (show MM67_SEC ≠ MM67_HOUR from by decide),
      Function.update_noteq (show MM67_SEC ≠ MM67_DOW from by decide),
      Function.update_noteq (show MM67_SEC ≠ MM67_DOM from by decide),
      Function.update_noteq (show MM67_MIN ≠ MM67_HOUR from by decide),
      Function.update_noteq (show MM67_MIN ≠ MM67_DOW from by decide),
      Function.update_noteq (show MM67_MIN ≠ MM67_DOM from by decide),
      Function.update_noteq (show MM67_HOUR ≠ MM67_DOW from by decide),
      Function.update_noteq (show MM67_HOUR ≠ MM67_DOM from by decide),
      Function.update_noteq (show MM67_DOW ≠ MM67_HOUR from by decide),
      Function.update_noteq (show MM67_DOW ≠ MM67_DOM from by decide),
      Function.update_noteq (show MM67_DOM ≠ MM67_HOUR from by decide),
      Function.update_noteq (show MM67_DOM ≠ MM67_DOW from by decide),
      Function.update_noteq (show MM67_MON ≠ MM67_HOUR from by decide),
      Function.update_noteq (show MM67_MON ≠ MM67_DOW from by decide),
      Function.update_noteq (show MM67_MON ≠ MM67_DOM from by decide),
      Function.update_noteq (show MM67_AL_DOM ≠ MM67_HOUR from by decide),
      Function.update_noteq (show MM67_AL_DOM ≠ MM67_DOW from by decide),
      Function.update_noteq (show MM67_AL_DOM ≠ MM67_DOM from by decide),
      Function.update_noteq (show MM67_ICTRL ≠ MM67_HOUR from by decide),
      Function.update_noteq (show MM67_ICTRL ≠ MM67_DOW from by decide),
      Function.update_noteq (show MM67_ICTRL ≠ MM67_DOM from by decide),
      hv5, hv6, hdcb6]
    by_cases hroll : nvr_get_days (RTC_DCB (regs MM67_MON))
        (RTC_DCB (regs MM67_AL_DOM) + 80 + 1900) < RTC_DCB (regs MM67_DOM) + 1
    · rw [if_pos hroll]
      refine tickMonth_tw _ _ ?_ ?_ ?_ ?_ ?_ ?_ <;>
        simp [Function.update, MM67_SEC, MM67_MIN, MM67_HOUR, MM67_DOW, MM67_DOM,
          MM67_MON, MM67_AL_DOM, h2, h3, h7, h14, hb0, hb1, g2, g3, g5, g6, g7, g14]
    · rw [if_neg hroll]
      have hvd : ValidBCD (RTC_BCD (RTC_DCB (regs MM67_DOM) + 1)) := by
        have := nvr_get_days_le (RTC_DCB (regs MM67_MON))
          (RTC_DCB (regs MM67_AL_DOM) + 80 + 1900)
        exact bcd_valid _ (by omega)
      have hvd2 : ValidBCD (RTC_BCD (RTC_DCB (regs 6) + 1)) := hvd
      unfold RegsWf
      refine ⟨?_, ?_, ?_, ?_, ?_, ?_, ?_⟩ <;>
        simp [Function.update, MM67_SEC, MM67_MIN, MM67_HOUR, MM67_DOW, MM67_DOM,
          MM67_MON, MM67_AL_DOM, h2, h3, h7, h14, hb0, hb1, hvd, hvd2, g2, g3, g5,
          g6, g7, g14]
  · rw [if_neg hcw]
    dsimp only
    simp only [Function.update_same,
      Function.update_noteq (show MM67_SEC ≠ MM67_HOUR from by decide),
      Function.update_noteq (show MM67_SEC ≠ MM67_DOW from by decide),
      Function.update_noteq (show MM67_SEC ≠ MM67_DOM from by decide),
      Function.update_noteq (show MM67_MIN ≠ MM67_HOUR from by decide),
      Function.update_noteq (show MM67_MIN ≠ MM67_DOW from by decide),
      Function.update_noteq (show MM67_MIN ≠ MM67_DOM from by decide),
      Function.update_noteq (show MM67_HOUR ≠ MM67_DOW from by decide),
      Function.update_noteq (show MM67_HOUR ≠ MM67_DOM from by decide),
      Function.update_noteq (show MM67_DOW ≠ MM67_HOUR from by decide),
      Function.update_noteq (show MM67_DOW ≠ MM67_DOM from by decide),
      Function.update_noteq (show MM67_DOM ≠ MM67_HOUR from by decide),
      Function.update_noteq (show MM67_DOM ≠ MM67_DOW from by decide),
      Function.update_noteq (show MM67_MON ≠ MM67_HOUR from by decide),
      Function.update_noteq (show MM67_MON ≠ MM67_DOW from by decide),
      Function.update_noteq (show MM67_MON ≠ MM67_DOM from by decide),
      Function.update_noteq (show MM67_AL_DOM ≠ MM67_HOUR from by decide),
      Function.update_noteq (show MM67_AL_DOM ≠ MM67_DOW from by decide),
      Function.update_noteq (show MM67_AL_DOM ≠ MM67_DOM from by decide),
      Function.update_noteq (show MM67_ICTRL ≠ MM67_HOUR from by decide),
      Function.update_noteq (show MM67_ICTRL ≠ MM67_DOW from by decide),
      Function.update_noteq (show MM67_ICTRL ≠ MM67_DOM from by decide),
      hv5, hv6, hdcb6]
    have hvw : ValidBCD (RTC_BCD (RTC_DCB (regs MM67_DOW) + 1)) := by
      have := bcd_gt_7_iff (RTC_DCB (regs MM67_DOW) + 1) (by omega)
      exact bcd_valid _ (by omega)
    have hvw2 : ValidBCD (RTC_BCD (RTC_DCB (regs 5) + 1)) := hvw
    by_cases hroll : nvr_get_days (RTC_DCB (regs MM67_MON))
        (RTC_DCB (regs MM67_AL_DOM) + 80 + 1900) < RTC_DCB (regs MM67_DOM) + 1
    · rw [if_pos hroll]
      refine tickMonth_tw _ _ ?_ ?_ ?_ ?_ ?_ ?_ <;>
        simp [Function.update, MM67_SEC, MM67_MIN, MM67_HOUR, MM67_DOW, MM67_DOM,
          MM67_MON, MM67_AL_DOM, h2, h3, h7, h14, hb0, hb1, hvw, hvw2, g2, g3, g5,
          g6, g7, g14]
    · rw [if_neg hroll]
      have hvd : ValidBCD (RTC_BCD (RTC_DCB (regs MM67_DOM) + 1)) := by
        have := nvr_get_days_le (RTC_DCB (regs MM67_MON))
          (RTC_DCB (regs MM67_AL_DOM) + 80 + 1900)
        exact bcd_valid _ (by omega)
      have hvd2 : ValidBCD (RTC_BCD (RTC_DCB (regs 6) + 1)) := hvd
      unfold RegsWf
      refine ⟨?_, ?_, ?_, ?_, ?_, ?_, ?_⟩ <;>
        simp [Function.update, MM67_SEC, MM67_MIN, MM67_HOUR, MM67_DOW, MM67_DOM,
          MM67_MON, MM67_AL_DOM, h2, h3, h7, h14, hb0, hb1, hvd, hvd2, hvw, hvw2,
          g2, g3, g5, g6, g7, g14]

/-- The hour block preserves the time-field validity. -/
theorem tickHour_tw (regs : Regs) (f : Nat)
    (h2 : ValidBCD (regs MM67_SEC)) (h4 : ValidBCD (regs MM67_HOUR))
    (h5 : ValidBCD (regs MM67_DOW)) (h6 : ValidBCD (regs MM67_DOM))
    (h7 : ValidBCD (regs MM67_MON)) (h14 : ValidBCD (regs MM67_AL_DOM)) :
    RegsWf (tickHour (some MM67_AL_DOM) regs f).1 := by
  have hh := validBCD_dcb_lt _ h4
  have hb0 : ValidBCD (RTC_BCD 0) := bcd_valid 0 (by omega)
  have hv4 : RTC_BCDINC (regs MM67_HOUR) 1 % 256 =
      RTC_BCD (RTC_DCB (regs MM67_HOUR) + 1) := bcdinc_valid _ h4
  unfold tickHour
  dsimp only
  simp only [Function.update_same,
    Function.update_noteq (show MM67_HOUR ≠ MM67_MIN from by decide), hv4]
  by_cases hc : RTC_BCD 24 ≤ RTC_BCD (RTC_DCB (regs MM67_HOUR) + 1)
  · rw [if_pos hc]
    refine tickDay_tw _ _ ?_ ?_ ?_ ?_ ?_ ?_ <;>
      simp [Function.update, MM67_SEC, MM67_MIN, MM67_HOUR, MM67_DOW, MM67_DOM,
        MM67_MON, MM67_AL_DOM, hb0, (show ValidBCD (regs 2) from h2),
        (show ValidBCD (regs 5) from h5), (show ValidBCD (regs 6) from h6),
        (show ValidBCD (regs 7) from h7), (show ValidBCD (regs 14) from h14)]
  · rw [if_neg hc]
    have hvh : ValidBCD (RTC_BCD (RTC_DCB (regs MM67_HOUR) + 1)) := by
      have := bcd_ge_24_iff (RTC_DCB (regs MM67_HOUR) + 1) (by omega)
      exact bcd_valid _ (by omega)
    unfold RegsWf
    refine ⟨?_, ?_, ?_, ?_, ?_, ?_, ?_⟩ <;>
      simp [Function.update, MM67_SEC, MM67_MIN, MM67_HOUR, MM67_DOW, MM67_DOM,
        MM67_MON, MM67_AL_DOM, hb0, hvh,
        (show ValidBCD (RTC_BCD (RTC_DCB (regs 4) + 1)) from hvh),
        (show ValidBCD (regs 2) from h2), (show ValidBCD (regs 5) from h5),
        (show ValidBCD (regs 6) from h6), (show ValidBCD (regs 7) from h7),
        (show ValidBCD (regs 14) from h14)]

/-- The minute block preserves the time-field validity. -/
theorem tickMin_tw (regs : Regs) (f : Nat)
    (h3 : ValidBCD (regs MM67_MIN)) (h4 : ValidBCD (regs MM67_HOUR))
    (h5 : ValidBCD (regs MM67_DOW)) (h6 : ValidBCD (regs MM67_DOM))
    (h7 : ValidBCD (regs MM67_MON)) (h14 : ValidBCD (regs MM67_AL_DOM)) :
    RegsWf (tickMin (some MM67_AL_DOM) regs f).1 := by
  have hm := validBCD_dcb_lt _ h3
  have hb0 : ValidBCD (RTC_BCD 0) := bcd_valid 0 (by omega)
  have hv3 : RTC_BCDINC (regs MM67_MIN) 1 % 256 =
      RTC_BCD (RTC_DCB (regs MM67_MIN) + 1) := bcdinc_valid _ h3
  unfold tickMin
  dsimp only
  simp only [Function.update_same,
    Function.update_noteq (show MM67_MIN ≠ MM67_SEC from by decide), hv3]
  by_cases hc : RTC_BCD 60 ≤ RTC_BCD (RTC_DCB (regs MM67_MIN) + 1)
  · rw [if_pos hc]
    refine tickHour_tw _ _ ?_ ?_ ?_ ?_ ?_ ?_ <;>
      simp [Function.update, MM67_SEC, MM67_MIN, MM67_HOUR, MM67_DOW, MM67_DOM,
        MM67_MON, MM67_AL_DOM, hb0, (show ValidBCD (regs 4) from h4),
        (show ValidBCD (regs 5) from h5), (show ValidBCD (regs 6) from h6),
        (show ValidBCD (regs 7) from h7), (show ValidBCD (regs 14) from h14)]
  · rw [if_neg hc]
    have hvm : ValidBCD (RTC_BCD (RTC_DCB (regs MM67_MIN) + 1)) := by
      have := bcd_ge_60_iff (RTC_DCB (regs MM67_MIN) + 1) (by omega)
      exact bcd_valid _ (by omega)
    unfold RegsWf
    refine ⟨?_, ?_, ?_, ?_, ?_, ?_, ?_⟩ <;>
      simp [Function.update, MM67_SEC, MM67_MIN, MM67_HOUR, MM67_DOW, MM67_DOM,
        MM67_MON, MM67_AL_DOM, hb0, hvm,
        (show ValidBCD (RTC_BCD (RTC_DCB (regs 3) + 1)) from hvm),
        (show ValidBCD (regs 4) from h4), (show ValidBCD (regs 5) from h5),
        (show ValidBCD (regs 6) from h6), (show ValidBCD (regs 7) from h7),
        (show ValidBCD (regs 14) from h14)]

/-- The full time-advance step preserves the time-field validity. -/
theorem tickTime_tw (regs : Regs) (hwf : RegsWf regs) :
    RegsWf (tickTime (some MM67_AL_DOM) regs).1 := by
  obtain ⟨h2, h3, h4, h5, h6, h7, h14⟩ := hwf
  have hs := validBCD_dcb_lt _ h2
  have hb0 : ValidBCD (RTC_BCD 0) := bcd_valid 0 (by omega)
  have hv2 : RTC_BCDINC (regs MM67_SEC) 1 % 256 =
      RTC_BCD (RTC_DCB (regs MM67_SEC) + 1) := bcdinc_valid _ h2
  unfold tickTime
  dsimp only
  simp only [Function.update_same, hv2]
  by_cases hc : RTC_BCD 60 ≤ RTC_BCD (RTC_DCB (regs MM67_SEC) + 1)
  · rw [if_pos hc]
    refine tickMin_tw _ _ ?_ ?_ ?_ ?_ ?_ ?_ <;>
      simp [Function.update, MM67_SEC, MM67_MIN, MM67_HOUR, MM67_DOW, MM67_DOM,
        MM67_MON, MM67_AL_DOM, (show ValidBCD (regs 3) from h3),
        (show ValidBCD (regs 4) from h4), (show ValidBCD (regs 5) from h5),
        (show ValidBCD (regs 6) from h6), (show ValidBCD (regs 7) from h7),
        (show ValidBCD (regs 14) from h14)]
  · rw [if_neg hc]
    have hvs : ValidBCD (RTC_BCD (RTC_DCB (regs MM67_SEC) + 1)) := by
      have := bcd_ge_60_iff (RTC_DCB (regs MM67_SEC) + 1) (by omega)
      exact bcd_valid _ (by omega)
    unfold RegsWf
    refine ⟨?_, ?_, ?_, ?_, ?_, ?_, ?_⟩ <;>
      simp [Function.update, MM67_SEC, MM67_MIN, MM67_HOUR, MM67_DOW, MM67_DOM,
        MM67_MON, MM67_AL_DOM, hvs,
        (show ValidBCD (RTC_BCD (RTC_DCB (regs 2) + 1)) from hvs),
        (show ValidBCD (regs 3) from h3), (show ValidBCD (regs 4) from h4),
        (show ValidBCD (regs 5) from h5), (show ValidBCD (regs 6) from h6),
        (show ValidBCD (regs 7) from h7), (show ValidBCD (regs 14) from h14)]

theorem mm67_tick_year_reg (st : Mm67) : (mm67_tick st).1.year_reg = st.year_reg := by
  unfold mm67_tick
  dsimp only
  split <;> rfl

/-- A tick preserves device-level well-formedness. -/
theorem tick_timeWf (st : Mm67) (hwf : TimeWf st) : TimeWf (mm67_tick st).1 := by
  obtain ⟨hyr, hr⟩ := hwf
  have h := tickTime_tw st.regs hr
  have e : ∀ j, j ≠ MM67_ISTAT →
      (mm67_tick st).1.regs j = (tickTime (some MM67_AL_DOM) st.regs).1 j := by
    intro j hj
    rw [mm67_tick_regs_of_ne st j hj, hyr]
  refine ⟨by rw [mm67_tick_year_reg]; exact hyr, ?_, ?_, ?_, ?_, ?_, ?_, ?_⟩
  · rw [e MM67_SEC (by decide)]; exact h.1
  · rw [e MM67_MIN (by decide)]; exact h.2.1
  · rw [e MM67_HOUR (by decide)]; exact h.2.2.1
  · rw [e MM67_DOW (by decide)]; exact h.2.2.2.1
  · rw [e MM67_DOM (by decide)]; exact h.2.2.2.2.1
  · rw [e MM67_MON (by decide)]; exact h.2.2.2.2.2.1
  · rw [e MM67_AL_DOM (by decide)]; exact h.2.2.2.2.2.2

/-- Seeding the time registers from a well-formed host time establishes
device well-formedness. -/
theorem time_set_timeWf (tm : Tm) (st : Mm67) (htm : TmWf tm)
    (hyr : st.year_reg = some MM67_AL_DOM) : TimeWf (mm67_time_set tm st) := by
  obtain ⟨hs, hm, hh, hw, hd1, hd2, hmo, hy⟩ := htm
  unfold mm67_time_set TimeWf RegsWf
  rw [hyr]
  dsimp only
  refine ⟨rfl, ?_, ?_, ?_, ?_, ?_, ?_, ?_⟩ <;>
    (simp [Function.update, MM67_MSEC, MM67_HUNTEN, MM67_SEC, MM67_MIN, MM67_HOUR,
        MM67_DOW, MM67_DOM, MM67_MON, MM67_AL_DOM]
     exact bcd_mod_valid _ (by omega))

/-- A port write that does not target a time-field register preserves
device well-formedness. -/
theorem write_timeWf (tm : Tm) (st : Mm67) (port val : Nat) (htm : TmWf tm)
    (hs2 : (port - 0x300) &&& 0x1f ≠ MM67_SEC)
    (hs3 : (port - 0x300) &&& 0x1f ≠ MM67_MIN)
    (hs4 : (port - 0x300) &&& 0x1f ≠ MM67_HOUR)
    (hs5 : (port - 0x300) &&& 0x1f ≠ MM67_DOW)
    (hs6 : (port - 0x300) &&& 0x1f ≠ MM67_DOM)
    (hs7 : (port - 0x300) &&& 0x1f ≠ MM67_MON)
    (hs14 : (port - 0x300) &&& 0x1f ≠ MM67_AL_DOM)
    (hwf : TimeWf st) : TimeWf (mm67_write tm st port val) := by
  obtain ⟨hyr, h2, h3, h4, h5, h6, h7, h14⟩ := hwf
  unfold mm67_write
  dsimp only
  split_ifs
  · refine ⟨hyr, ?_, ?_, ?_, ?_, ?_, ?_, ?_⟩ <;>
      simp [Function.update, MM67_MSEC, MM67_HUNTEN, MM67_SEC, MM67_MIN, MM67_HOUR,
        MM67_DOW, MM67_DOM, MM67_MON, MM67_AL_DOM,
        (show ValidBCD (st.regs 2) from h2), (show ValidBCD (st.regs 3) from h3),
        (show ValidBCD (st.regs 4) from h4), (show ValidBCD (st.regs 5) from h5),
        (show ValidBCD (st.regs 6) from h6), (show ValidBCD (st.regs 7) from h7),
        (show ValidBCD (st.regs 14) from h14)]
  · unfold mm67_reset mm67_start
    exact time_set_timeWf tm _ htm hyr
  · unfold mm67_start
    exact time_set_timeWf tm st htm hyr
  · refine ⟨hyr, ?_, ?_, ?_, ?_, ?_, ?_, ?_⟩ <;>
      simp [Function.update, MM67_ISTAT, MM67_SEC, MM67_MIN, MM67_HOUR,
        MM67_DOW, MM67_DOM, MM67_MON, MM67_AL_DOM,
        (show ValidBCD (st.regs 2) from h2), (show ValidBCD (st.regs 3) from h3),
        (show ValidBCD (st.regs 4) from h4), (show ValidBCD (st.regs 5) from h5),
        (show ValidBCD (st.regs 6) from h6), (show ValidBCD (st.regs 7) from h7),
        (show ValidBCD (st.regs 14) from h14)]
  · refine ⟨hyr, ?_, ?_, ?_, ?_, ?_, ?_, ?_⟩
    · dsimp only; rw [Function.update_noteq (Ne.symm hs2)]; exact h2
    · dsimp only; rw [Function.update_noteq (Ne.symm hs3)]; exact h3
    · dsimp only; rw [Function.update_noteq (Ne.symm hs4)]; exact h4
    · dsimp only; rw [Function.update_noteq (Ne.symm hs5)]; exact h5
    · dsimp only; rw [Function.update_noteq (Ne.symm hs6)]; exact h6
    · dsimp only; rw [Function.update_noteq (Ne.symm hs7)]; exact h7
    · dsimp only; rw [Function.update_noteq (Ne.symm hs14)]; exact h14
  · exact ⟨hyr, h2, h3, h4, h5, h6, h7, h14⟩

/-- Initialization establishes device well-formedness. -/
theorem init_timeWf (tm : Tm) (htm : TmWf tm) : TimeWf (leading_edge_rtc_init tm) := by
  unfold leading_edge_rtc_init mm67_reset mm67_start
  exact time_set_timeWf tm _ htm rfl

/-- Reachable device states: initialization followed by any interleaving
of ticks and port writes, with well-formed host times. -/
inductive Reachable : Mm67 → Prop
  | init (tm : Tm) : TmWf tm → Reachable (leading_edge_rtc_init tm)
  | tick {st : Mm67} : Reachable st → Reachable (mm67_tick st).1
  | write {st : Mm67} (tm : Tm) (port val : Nat) :
      TmWf tm → Reachable st → Reachable (mm67_write tm st port val)

/-- Reachable states when port writes never decode to a time-field
register (indices 2–7 or the year register 14). -/
inductive ReachableSafe : Mm67 → Prop
  | init (tm : Tm) : TmWf tm → ReachableSafe (leading_edge_rtc_init tm)
  | tick {st : Mm67} : ReachableSafe st → ReachableSafe (mm67_tick st).1
  | write {st : Mm67} (tm : Tm) (port val : Nat) :
      TmWf tm →
      (port - 0x300) &&& 0x1f ≠ MM67_SEC → (port - 0x300) &&& 0x1f ≠ MM67_MIN →
      (port - 0x300) &&& 0x1f ≠ MM67_HOUR → (port - 0x300) &&& 0x1f ≠ MM67_DOW →
      (port - 0x300) &&& 0x1f ≠ MM67_DOM → (port - 0x300) &&& 0x1f ≠ MM67_MON →
      (port - 0x300) &&& 0x1f ≠ MM67_AL_DOM →
      ReachableSafe st → ReachableSafe (mm67_write tm st port val)

/-- A reachable state with invalid BCD in the seconds register: after
initialization, write `0xAA` to port `0x302` (the seconds register). -/
def c6bad : Mm67 := mm67_write wtm (leading_edge_rtc_init wtm) 0x302 0xAA

/-- Counterexample to C6 as stated: a single port write can place a
non-BCD byte into a time-field register (writes store the value
verbatim, unvalidated), so the invariant does not hold over every
interleaving of ticks and port writes. -/
theorem c6_counterexample : Reachable c6bad ∧ ¬ ValidBCD (c6bad.regs MM67_SEC) :=
  ⟨Reachable.write wtm 0x302 0xAA (by decide) (Reachable.init wtm (by decide)),
   by decide⟩

/-- C6 (amended): for every state reachable from initialization through
any interleaving of ticks and port writes that never decode to a
time-field register (indices 2–7 or the year register 14), every time
field register — seconds, minutes, hours, day-of-week, day-of-month,
month, and the year register — holds valid BCD. -/
theorem c6_time_fields_valid_bcd (st : Mm67) (h : ReachableSafe st) :
    ValidBCD (st.regs MM67_SEC) ∧ ValidBCD (st.regs MM67_MIN) ∧
    ValidBCD (st.regs MM67_HOUR) ∧ ValidBCD (st.regs MM67_DOW) ∧
    ValidBCD (st.regs MM67_DOM) ∧ ValidBCD (st.regs MM67_MON) ∧
    ValidBCD (st.regs MM67_AL_DOM) := by
  have hwf : TimeWf st := by
    induction h with
    | init tm htm => exact init_timeWf tm htm
    | tick _ ih => exact tick_timeWf _ ih
    | write tm port val htm hn2 hn3 hn4 hn5 hn6 hn7 hn14 _ ih =>
        exact write_timeWf tm _ port val htm hn2 hn3 hn4 hn5 hn6 hn7 hn14 ih
  exact hwf.2

/-- Witness for the amended C6: the freshly initialized device. -/
theorem c6_time_fields_valid_bcd_witness :
    ValidBCD ((leading_edge_rtc_init wtm).regs MM67_SEC) ∧
    ValidBCD ((leading_edge_rtc_init wtm).regs MM67_AL_DOM) :=
  ⟨(c6_time_fields_valid_bcd (leading_edge_rtc_init wtm)
      (ReachableSafe.init wtm (by decide))).1,
   (c6_time_fields_valid_bcd (leading_edge_rtc_init wtm)
      (ReachableSafe.init wtm (by decide))).2.2.2.2.2.2⟩
